import Mathlib

/-!
Shallow embedding of the identity-governance provisioning simulator
(`src/services/sailpointService.js`) and the contractor onboarding /
offboarding workflows (`src/routes/contractors.js`).

JavaScript conventions are modelled explicitly:
* a possibly-`undefined` string is `Option String`; `undefined` interpolated
  into a template literal renders as the string `"undefined"`;
* `a || b` on strings falls through on `undefined` and on `""` (falsiness);
* the two module-level object stores (`simulatedAccountsStore`,
  `simulatedIdentitiesStore`) are insertion-ordered association lists; keyed
  assignment replaces in place or appends, `for..in` iterates in insertion
  order;
* `simulatedIdentitiesStore` holds both identity objects and lifecycle-change
  task objects; a freshly created identity is stored under two keys (its
  account id and its identity id) that alias one object, so identities live in
  a heap (`List Identity`) and store entries reference them by index;
* a thrown `TypeError` is `Except.error`; mutations performed before the throw
  persist, so every operation returns its result together with the new state.

`Date.now()` is passed in as an explicit `now : Nat` argument at each call
site that reads the clock.  Logging, the simulated token acquisition and the
inter-attempt delays have no effect on the stores and are not modelled.
-/

/-- JavaScript truthiness of a possibly-undefined string: `undefined` and the
empty string are falsy. -/
def jsTruthy : Option String → Bool
  | none => false
  | some s => !(s = "")

/-- JavaScript `a || b` where both operands are possibly-undefined strings. -/
def jsOr (a b : Option String) : Option String :=
  match a with
  | some s => if s = "" then b else some s
  | none => b

/-- JavaScript `a || b` where the fallback is a defined string. -/
def jsOrStr (a : Option String) (b : String) : String :=
  match a with
  | some s => if s = "" then b else s
  | none => b

/-- Rendering of a possibly-undefined string inside a template literal:
`undefined` prints as `"undefined"`. -/
def undefStr (a : Option String) : String :=
  match a with
  | some s => s
  | none => "undefined"

/-- JavaScript object-property assignment on an insertion-ordered store:
replace in place when the key exists (keys of a JS object are unique, so
replacing the first occurrence is replacement in place), append otherwise. -/
def storeSet {α : Type} : List (String × α) → String → α → List (String × α)
  | [], k, v => [(k, v)]
  | p :: rest, k, v =>
    if p.1 = k then (k, v) :: rest else p :: storeSet rest k v

/-- JavaScript object-property read: the value stored at the key, if any. -/
def storeGet {α : Type} : List (String × α) → String → Option α
  | [], _ => none
  | p :: rest, k => if p.1 = k then some p.2 else storeGet rest k

/-- An `Account` record: a login on one source system
(`{id, nativeIdentity, sourceId, sourceName, status}` in the mock store). -/
structure Account where
  id : String
  nativeIdentity : String
  sourceId : String
  sourceName : String
  status : String
deriving DecidableEq

/-- The weak manager reference held by an identity (`{id, name}`). -/
structure ManagerRef where
  id : String
  name : String
deriving DecidableEq

/-- An access item (`{id, type, name, description}`) held by an identity. -/
structure AccessItem where
  id : String
  type : String
  name : String
  description : String
deriving DecidableEq

/-- The open attribute map of an identity / account payload.  Keys are unique
by construction (`attrSet` replaces), mirroring a JS object literal. -/
def Attrs : Type := List (String × String)

instance : DecidableEq Attrs := by
  unfold Attrs
  infer_instance

/-- Property read on an attribute map. -/
def attrGet (a : Attrs) (k : String) : Option String :=
  storeGet a k

/-- Property write on an attribute map (spread-override semantics). -/
def attrSet (a : Attrs) (k v : String) : Attrs :=
  storeSet a k v

/-- An `Identity` object of `simulatedIdentitiesStore`.  `email`,
`sourceAccountId` and `manager` are absent (`undefined`) on some identities. -/
structure Identity where
  id : String
  name : String
  email : Option String
  attributes : Attrs
  lifecycleState : String
  manager : Option ManagerRef
  sourceAccountId : Option String
  accounts : List Account
  access : List AccessItem
deriving DecidableEq

/-- The payload handed to `simulateCreateAccount`
(`{sourceId, attributes}`). -/
structure AccountData where
  sourceId : String
  attributes : Attrs
deriving DecidableEq

/-- A task record of `simulatedAccountsStore`.  Account-creation tasks carry
`accountData` and no `type`/`name`; account-disable tasks carry `type`/`name`
and no `accountData`. -/
structure AcctTask where
  status : String
  accountId : String
  accountData : Option AccountData
  type : Option String
  name : Option String
deriving DecidableEq

/-- A lifecycle-change task record stored in `simulatedIdentitiesStore`
(`{status, identityId, type, name}`).  `lifecycleState` models the property a
later `simulateSetLifecycleState` call can dynamically attach to this object
when it is (mis)addressed as an identity. -/
structure LcsTask where
  status : String
  identityId : String
  type : String
  name : String
  lifecycleState : Option String
deriving DecidableEq

/-- An entry of `simulatedIdentitiesStore`: either a reference into the
identity heap (several keys may alias one identity object) or a
lifecycle-change task object. -/
inductive IdentEntry : Type
  | ref (n : Nat)
  | task (t : LcsTask)
deriving DecidableEq

/-- The module-level mutable state of `sailpointService.js`: the identity
heap, the two stores and the two id counters. -/
structure SPState where
  heap : List Identity
  identStore : List (String × IdentEntry)
  acctStore : List (String × AcctTask)
  accountCounter : Nat
  identityCounter : Nat
deriving DecidableEq

/-- Identity id generated from the identity counter
(`simulated-identityId-${identityCounter++}`). -/
def mkIdentityId (k : Nat) : String :=
  "simulated-identityId-" ++ Nat.repr k

/-- Account id generated from the account counter
(`simulated-accountId-${accountCounter++}`). -/
def mkAccountId (k : Nat) : String :=
  "simulated-accountId-" ++ Nat.repr k

/-- The seeded manager identity (`Jane Manager`). -/
def managerIdentity : Identity :=
  { id := mkIdentityId 0
    name := "Jane Manager"
    email := some "jane.manager@example.com"
    attributes :=
      [("displayName", "Jane Manager"), ("mail", "jane.manager@example.com"),
       ("department", "Management")]
    lifecycleState := "active"
    manager := none
    sourceAccountId := none
    accounts :=
      [{ id := "sim-acc-mgr-0", nativeIdentity := "janemgr", sourceId := "AD",
         sourceName := "Active Directory", status := "enabled" }]
    access := [] }

/-- The seeded contractor identity (`John Doe User`) with two accounts and two
access items. -/
def user1Identity : Identity :=
  { id := mkIdentityId 1
    name := "John Doe User"
    email := some "john.doe.user@example.com"
    attributes :=
      [("displayName", "John Doe User"), ("mail", "john.doe.user@example.com"),
       ("department", "IT"), ("title", "Developer")]
    lifecycleState := "active"
    manager := some { id := mkIdentityId 0, name := "Jane Manager" }
    sourceAccountId := none
    accounts :=
      [{ id := "sim-acc-jd1-1", nativeIdentity := "johndoe", sourceId := "AD",
         sourceName := "Active Directory", status := "enabled" },
       { id := "sim-acc-jd2-2", nativeIdentity := "jdoe",
         sourceId := "Salesforce", sourceName := "Salesforce CRM",
         status := "enabled" }]
    access :=
      [{ id := "ap-contractor-base", type := "ACCESS_PROFILE",
         name := "Contractor Base Access",
         description := "Basic network and email access for contractors." },
       { id := "role-developer-tools", type := "ROLE",
         name := "Developer Tools Suite",
         description := "Access to standard developer applications." }] }

/-- The module-initialisation state: two seeded identities, counters advanced
past the seeds (`accountCounter = 3`, `identityCounter = 2`). -/
def initState : SPState :=
  { heap := [managerIdentity, user1Identity]
    identStore := [(mkIdentityId 0, IdentEntry.ref 0),
                   (mkIdentityId 1, IdentEntry.ref 1)]
    acctStore := []
    accountCounter := 3
    identityCounter := 2 }

/-- The `.id` property of a store entry: an identity's id, `undefined` on a
task object (tasks have no `id` field). -/
def entryIdProp (heap : List Identity) : IdentEntry → Option String
  | IdentEntry.ref n => (heap.get? n).map (fun i => i.id)
  | IdentEntry.task _ => none

/-- The `.email` property of a store entry (`undefined` on task objects). -/
def entryEmail (heap : List Identity) : IdentEntry → Option String
  | IdentEntry.ref n => (heap.get? n).bind (fun i => i.email)
  | IdentEntry.task _ => none

/-- The `.sourceAccountId` property of a store entry. -/
def entrySourceAccountId (heap : List Identity) : IdentEntry → Option String
  | IdentEntry.ref n => (heap.get? n).bind (fun i => i.sourceAccountId)
  | IdentEntry.task _ => none

/-- Lookup `findIdentityById`: direct key lookup in
`simulatedIdentitiesStore`, then a linear scan for an entry whose `.id`
property equals the argument. -/
def findIdentityById (st : SPState) (identityId : String) : Option IdentEntry :=
  match storeGet st.identStore identityId with
  | some e => some e
  | none =>
    (st.identStore.find?
       (fun p => entryIdProp st.heap p.2 = some identityId)).map (fun p => p.2)

/-- A JavaScript runtime exception: the `TypeError` raised when a property of
`undefined` is read (message text abbreviated, apostrophes omitted). -/
inductive JsErr : Type
  | typeError (message : String)
deriving DecidableEq

/-- The `result` object attached to every task-status snapshot: the
account-oriented shape `{accountId, identityId, sourceName, status:"success"}`
or the generic shape `{status:"success", message}`; the constant
`status:"success"` member is implicit in the constructor. -/
inductive TaskResult : Type
  | acct (accountId : String) (identityId : Option String) (sourceName : String)
  | generic (message : String)
deriving DecidableEq

/-- The `data` object returned by `simulateGetTaskStatus` with HTTP 200:
`{id, type, name, status, result}`.  `status` is `undefined` when the looked-up
entry is an identity object (which has no `status` property). -/
structure TaskSnapshot where
  id : String
  type : String
  name : Option String
  status : Option String
  result : TaskResult
deriving DecidableEq

/-- A response of `simulateGetTaskStatus`: 200 with a snapshot or 404 with a
message object. -/
inductive TaskResponse : Type
  | ok (snap : TaskSnapshot)
  | notFound (message : String)
deriving DecidableEq

/-- One step of the staged task status: the `if`/`else if` chain of
`simulateGetTaskStatus` (`QUEUED` to `PROCESSING`, `PROCESSING` to
`COMPLETED`, anything else unchanged). -/
def advanceStatus (s : String) : String :=
  if s = "QUEUED" then "PROCESSING"
  else if s = "PROCESSING" then "COMPLETED"
  else s

/-- Mirrors `simulateGetTaskStatus(taskId)`.  The entry is looked up in
`simulatedAccountsStore` first, then in `simulatedIdentitiesStore`; its
`status` property is advanced in place, then the `result` object is computed
unconditionally.  On a task with a truthy `accountId` but no `accountData`
(an account-disable task) the read `taskDetails.accountData.sourceId` throws,
after the status advance has already been stored. -/
def simulateGetTaskStatus (st : SPState) (taskId : String) :
    Except JsErr TaskResponse × SPState :=
  match storeGet st.acctStore taskId with
  | some t =>
    let newStatus := advanceStatus t.status
    let st1 : SPState :=
      { st with acctStore :=
          storeSet st.acctStore taskId { t with status := newStatus } }
    if t.accountId = "" then
      (Except.ok (TaskResponse.ok
        { id := taskId, type := jsOrStr t.type "GENERIC_TASK", name := t.name,
          status := some newStatus,
          result := TaskResult.generic
            (undefStr t.name ++ " completed successfully.") }), st1)
    else
      match t.accountData with
      | none =>
        (Except.error (JsErr.typeError
           "cannot read sourceId of undefined accountData"), st1)
      | some d =>
        (Except.ok (TaskResponse.ok
          { id := taskId, type := jsOrStr t.type "GENERIC_TASK", name := t.name,
            status := some newStatus,
            result := TaskResult.acct t.accountId
              ((findIdentityById st1 t.accountId).bind (entryIdProp st1.heap))
              d.sourceId }), st1)
  | none =>
    match storeGet st.identStore taskId with
    | some (IdentEntry.task t) =>
      let newStatus := advanceStatus t.status
      let entry1 := IdentEntry.task { t with status := newStatus }
      let st1 : SPState :=
        { st with identStore := storeSet st.identStore taskId entry1 }
      (Except.ok (TaskResponse.ok
        { id := taskId, type := jsOrStr (some t.type) "GENERIC_TASK",
          name := some t.name, status := some newStatus,
          result := TaskResult.generic
            (t.name ++ " completed successfully.") }), st1)
    | some (IdentEntry.ref n) =>
      let nm := (st.heap.get? n).map (fun i => i.name)
      (Except.ok (TaskResponse.ok
        { id := taskId, type := "GENERIC_TASK", name := nm, status := none,
          result := TaskResult.generic
            (undefStr nm ++ " completed successfully.") }), st)
    | none =>
      (Except.ok (TaskResponse.notFound
         ("Task " ++ taskId ++ " not found (simulated).")), st)

/-- Response data of the 202-accepted mutation operations
(`{id, type, status, name}`), or the 404 message object. -/
inductive OpResponse : Type
  | accepted (id : String) (type : String) (status : String) (name : String)
  | notFound (message : String)
deriving DecidableEq

/-- Read of `response.data.id` (`undefined` on a 404 message object). -/
def respId : OpResponse → Option String
  | OpResponse.accepted i _ _ _ => some i
  | OpResponse.notFound _ => none

/-- Mirrors `simulateCreateAccount(accountData)`: synchronously creates the
account, a correlated identity stored under both the account id and the
identity id (one shared object), and a `QUEUED` account-creation task, then
answers 202 with the task id. -/
def simulateCreateAccount (st : SPState) (accountData : AccountData)
    (now : Nat) : OpResponse × SPState :=
  let taskId := "account-creation-task-" ++ Nat.repr now
  let accountId := mkAccountId st.accountCounter
  let identityId := mkIdentityId st.identityCounter
  let attrs := accountData.attributes
  let nm := jsOrStr (attrGet attrs "displayName")
      (undefStr (attrGet attrs "givenName") ++ " " ++
       undefStr (jsOr (attrGet attrs "sn") (attrGet attrs "lastName")))
  let newIdentity : Identity :=
    { id := identityId, name := nm, email := attrGet attrs "mail",
      attributes := attrs, lifecycleState := "active", manager := none,
      sourceAccountId := some accountId,
      accounts := [{ id := accountId,
                     nativeIdentity := jsOrStr (attrGet attrs "sAMAccountName")
                       accountId,
                     sourceId := accountData.sourceId,
                     sourceName := accountData.sourceId,
                     status := "enabled" }],
      access := [] }
  let n := st.heap.length
  let st1 : SPState :=
    { heap := st.heap ++ [newIdentity]
      identStore :=
        storeSet (storeSet st.identStore accountId (IdentEntry.ref n))
          identityId (IdentEntry.ref n)
      acctStore := storeSet st.acctStore taskId
        { status := "QUEUED", accountId := accountId,
          accountData := some accountData, type := none, name := none }
      accountCounter := st.accountCounter + 1
      identityCounter := st.identityCounter + 1 }
  (OpResponse.accepted taskId "ACCOUNT_ACTIVITY" "QUEUED"
     ("Create account for " ++ nm), st1)

/-- Query object of `simulateSearchIdentity` (each discriminator may be
absent). -/
structure SearchParams where
  email : Option String
  accountId : Option String
  identityId : Option String
deriving DecidableEq

/-- One element of the search response list: the projection
`{id, name, attributes, lifecycleState, manager, accounts}` of the found store
entry (properties read off a task object are mostly `undefined`). -/
structure SearchResult where
  id : Option String
  name : Option String
  attributes : Option Attrs
  lifecycleState : Option String
  manager : Option ManagerRef
  accounts : Option (List Account)
deriving DecidableEq

/-- Response of `simulateSearchIdentity`: 200 with a one-element list or 404
with an empty list. -/
inductive SearchResponse : Type
  | found (data : List SearchResult)
  | notFound
deriving DecidableEq

/-- Projection of a store entry into a search-response element. -/
def mkSearchResult (heap : List Identity) : IdentEntry → SearchResult
  | IdentEntry.ref n =>
    match heap.get? n with
    | some i =>
      { id := some i.id, name := some i.name, attributes := some i.attributes,
        lifecycleState := some i.lifecycleState, manager := i.manager,
        accounts := some i.accounts }
    | none =>
      { id := none, name := none, attributes := none, lifecycleState := none,
        manager := none, accounts := none }
  | IdentEntry.task t =>
    { id := none, name := some t.name, attributes := none,
      lifecycleState := t.lifecycleState, manager := none, accounts := none }

/-- Mirrors `simulateSearchIdentity(queryParams)`.  The email branch scans the
whole store without breaking, so the last matching entry wins; the account-id
branch tries `findIdentityById` first and falls back to a first-match scan on
`sourceAccountId`; the identity-id branch is `findIdentityById`.  The stores
are not mutated. -/
def simulateSearchIdentity (st : SPState) (q : SearchParams) : SearchResponse :=
  let entry : Option IdentEntry :=
    if jsTruthy q.email then
      st.identStore.foldl
        (fun acc p => if entryEmail st.heap p.2 = q.email then some p.2 else acc)
        none
    else if jsTruthy q.accountId then
      match findIdentityById st (undefStr q.accountId) with
      | some e => some e
      | none =>
        (st.identStore.find?
           (fun p => entrySourceAccountId st.heap p.2 = q.accountId)).map
          (fun p => p.2)
    else if jsTruthy q.identityId then
      findIdentityById st (undefStr q.identityId)
    else none
  match entry with
  | some e => SearchResponse.found [mkSearchResult st.heap e]
  | none => SearchResponse.notFound

/-- First store entry (insertion order) whose identity object owns an account
with the given id: the `for..in` scan with `break` inside
`simulateDisableAccount`.  Task entries have no `accounts` property and are
skipped.  Returns the store key and the heap index of the owning identity. -/
def disableScan (st : SPState) (accountId : String) : Option (String × Nat) :=
  (st.identStore.find? (fun p =>
      match p.2 with
      | IdentEntry.ref n =>
        match st.heap.get? n with
        | some i => i.accounts.any (fun a => a.id = accountId)
        | none => false
      | IdentEntry.task _ => false)).bind (fun p =>
    match p.2 with
    | IdentEntry.ref n => some (p.1, n)
    | IdentEntry.task _ => none)

/-- Set the status of the first account with the given id to `disabled`; both
`accounts.find(...)` and `accounts.findIndex(...)` in the source address this
first match, and they alias the same account object. -/
def disableFirst (l : List Account) (accountId : String) : List Account :=
  match l with
  | [] => []
  | a :: rest =>
    if a.id = accountId then { a with status := "disabled" } :: rest
    else a :: disableFirst rest accountId

/-- Mirrors `simulateDisableAccount(accountId)`: scans for the owning
identity, answers 404 without side effects when no account matches, otherwise
disables the (shared) account object synchronously and enqueues a `QUEUED`
disable task that carries `accountId` but no `accountData`. -/
def simulateDisableAccount (st : SPState) (accountId : String) (now : Nat) :
    OpResponse × SPState :=
  match disableScan st accountId with
  | none =>
    (OpResponse.notFound
       ("Account " ++ accountId ++ " not found for disabling (simulated)."),
     st)
  | some (_, n) =>
    let taskId := "disable-account-task-" ++ Nat.repr now
    let heap1 := match st.heap.get? n with
      | some i =>
        st.heap.set n { i with accounts := disableFirst i.accounts accountId }
      | none => st.heap
    let task1 : AcctTask :=
      { status := "QUEUED", accountId := accountId, accountData := none,
        type := some "ACCOUNT_DISABLE_TASK",
        name := some ("Disable account " ++ accountId) }
    let st1 : SPState :=
      { st with
          heap := heap1
          acctStore := storeSet st.acctStore taskId task1 }
    (OpResponse.accepted taskId "ACCOUNT_ACTIVITY" "QUEUED"
       ("Disable account " ++ accountId), st1)

/-- Mirrors `simulateSetLifecycleState(identityId, newLifecycleState)`:
404 without side effects when `findIdentityById` finds nothing; otherwise the
found object gets its `lifecycleState` property set in place (when the found
object is an identity and the new state is `terminated`, every owned account
is set to `disabled`), and a `QUEUED` lifecycle task is stored in
`simulatedIdentitiesStore`. -/
def simulateSetLifecycleState (st : SPState) (identityId : String)
    (newLifecycleState : String) (now : Nat) : OpResponse × SPState :=
  match findIdentityById st identityId with
  | none =>
    (OpResponse.notFound
       ("Identity " ++ identityId ++
        " not found for lifecycle state change (simulated)."), st)
  | some entry =>
    let step : String × SPState :=
      match entry with
      | IdentEntry.ref n =>
        match st.heap.get? n with
        | some i =>
          let accounts1 :=
            if newLifecycleState = "terminated" then
              i.accounts.map (fun a => { a with status := "disabled" })
            else i.accounts
          let i1 : Identity :=
            { i with
                lifecycleState := newLifecycleState
                accounts := accounts1 }
          (i.name, { st with heap := st.heap.set n i1 })
        | none => ("undefined", st)
      | IdentEntry.task t =>
        let t1 := IdentEntry.task
          { t with lifecycleState := some newLifecycleState }
        (t.name,
         { st with identStore := storeSet st.identStore identityId t1 })
    let nm := step.1
    let st1 := step.2
    let taskId := "set-lcs-task-" ++ Nat.repr now
    let lcsRecord := IdentEntry.task
      { status := "QUEUED", identityId := identityId,
        type := "LIFECYCLE_STATE_CHANGE_TASK",
        name := "Set lifecycle state to " ++ newLifecycleState ++
          " for " ++ nm,
        lifecycleState := none }
    let st2 : SPState :=
      { st1 with identStore := storeSet st1.identStore taskId lcsRecord }
    (OpResponse.accepted taskId "IDENTITY_LIFECYCLE_UPDATE" "QUEUED"
       ("Lifecycle state change for " ++ nm ++ " to " ++ newLifecycleState),
     st2)

/-- Outcome of the polling helper: resolution with the snapshot whose
`data.status` was `COMPLETED`, or the rejection
`ApiError(500, "Task <id> did not complete after <n> attempts.")` carrying the
task id and the attempt budget. -/
inductive PollOutcome : Type
  | resolved (snap : TaskSnapshot)
  | timeout (taskId : String) (attempts : Nat)
deriving DecidableEq

/-- Loop of `pollTaskStatus`: `total` is the original attempt budget (used in
the rejection message), the recursion argument the remaining attempts.  A
query whose `data.status` is `COMPLETED` resolves immediately; a 404 or
non-terminal response consumes the attempt; a thrown error is caught, logged
and likewise consumes the attempt instead of aborting. -/
def pollLoop (taskId : String) (total : Nat) :
    Nat → SPState → PollOutcome × SPState
  | 0, st => (PollOutcome.timeout taskId total, st)
  | k + 1, st =>
    match simulateGetTaskStatus st taskId with
    | (Except.ok (TaskResponse.ok snap), st1) =>
      if snap.status = some "COMPLETED" then (PollOutcome.resolved snap, st1)
      else pollLoop taskId total k st1
    | (Except.ok (TaskResponse.notFound _), st1) => pollLoop taskId total k st1
    | (Except.error _, st1) => pollLoop taskId total k st1

/-- Mirrors `pollTaskStatus(taskId, attempts = 5, delay = 200)` of
`contractors.js`; the fixed inter-attempt delay suspends without touching the
stores and is not modelled. -/
def pollTaskStatus (st : SPState) (taskId : String) (attempts : Nat) :
    PollOutcome × SPState :=
  pollLoop taskId attempts attempts st

/-- An error surfaced by a workflow route: `BadRequestError` (HTTP 400) or an
`ApiError` with an explicit status code.  A `NotFoundError` would carry 404,
but neither route constructs one. -/
inductive WorkflowError : Type
  | badRequest (message : String)
  | apiError (statusCode : Nat) (message : String)
deriving DecidableEq

/-- HTTP status code attached to a workflow error. -/
def wfErrStatus : WorkflowError → Nat
  | WorkflowError.badRequest _ => 400
  | WorkflowError.apiError c _ => c

/-- One element of the `initialAccess` array: a bare string id or an
`{id, type}` object (either property may be absent). -/
inductive AccessReq : Type
  | str (id : String)
  | obj (id : Option String) (type : Option String)
deriving DecidableEq

/-- An element of `requestedItems` in an access-request payload. -/
structure RequestedItem where
  id : Option String
  type : Option String
  comment : String
deriving DecidableEq

/-- Payload of `POST /v3/access-requests` built by the onboarding loop. -/
structure AccessRequestPayload where
  requestedFor : List String
  requestType : String
  requestedItems : List RequestedItem
deriving DecidableEq

/-- Request body of `POST /mcp/api/v1/contractors/onboard`. -/
structure OnboardInput where
  firstName : Option String
  lastName : Option String
  email : Option String
  managerSailPointId : Option String
  attributes : Option Attrs
  initialAccess : List AccessReq
  endDate : Option String
deriving DecidableEq

/-- The 202 response body of the onboarding route (the constant
`status:"PENDING"` and `message` members are implicit). -/
structure OnboardAccepted where
  mcpTrackingId : String
  sailpointAccountId : String
  sailpointIdentityId : String
deriving DecidableEq

/-- Step 4 of the onboarding route: one access request per item; each
submission is wrapped in `try`/`catch`, so an individual failure is logged and
the loop continues with the remaining items.  The submission itself is the
abstract `grant` argument (the mocked `sailPointPost` never rejects for
`/v3/access-requests`; the abstraction admits injected failures). -/
def grantLoop (grant : AccessRequestPayload → Except String String)
    (identityId : String) : List AccessReq → Except String Unit
  | [] => Except.ok ()
  | item :: rest =>
    let itemType := match item with
      | AccessReq.str _ => some "ACCESS_PROFILE"
      | AccessReq.obj _ t => t
    let itemId := match item with
      | AccessReq.str s => some s
      | AccessReq.obj i _ => i
    let payload : AccessRequestPayload :=
      { requestedFor := [identityId], requestType := "GRANT_ACCESS",
        requestedItems :=
          [{ id := itemId, type := itemType,
             comment := "Initial access for new contractor." }] }
    match grant payload with
    | Except.ok _ => grantLoop grant identityId rest
    | Except.error _ => grantLoop grant identityId rest

/-- Mirrors the onboarding route handler: validation, account creation,
polling, identity resolution (task result, then search by account id, then
search by email), the best-effort access-grant loop, then the 202 response.
`now` feeds the tracking id, `nowCreate` the `Date.now()` read inside
`simulateCreateAccount`. -/
def onboardContractor (st : SPState) (inp : OnboardInput)
    (grant : AccessRequestPayload → Except String String)
    (now nowCreate : Nat) : Except WorkflowError OnboardAccepted × SPState :=
  let mcpTrackingId := "mcp-onboarding-" ++ Nat.repr now
  if (jsTruthy inp.firstName = true) ∧ (jsTruthy inp.lastName = true) ∧
      (jsTruthy inp.email = true) ∧ (jsTruthy inp.managerSailPointId = true) ∧
      (inp.attributes.isSome = true) then
    let email := undefStr inp.email
    let firstName := undefStr inp.firstName
    let lastName := undefStr inp.lastName
    let managerId := undefStr inp.managerSailPointId
    let attrs0 := inp.attributes.getD []
    let attrs1 := attrSet attrs0 "mail" email
    let attrs2 := attrSet attrs1 "displayName" (firstName ++ " " ++ lastName)
    let attrs3 := attrSet attrs2 "givenName" firstName
    let attrs4 := attrSet attrs3 "sn" lastName
    let attrs5 := attrSet attrs4 "manager" managerId
    let payload : AccountData :=
      { sourceId := "mockContractorSourceId", attributes := attrs5 }
    let step1 := simulateCreateAccount st payload nowCreate
    let accountCreationTaskId := respId step1.1
    let step2 := pollTaskStatus step1.2 (undefStr accountCreationTaskId) 5
    match step2.1 with
    | PollOutcome.timeout tid att =>
      (Except.error (WorkflowError.apiError 500
         ("Task " ++ tid ++ " did not complete after " ++ Nat.repr att ++
          " attempts.")), step2.2)
    | PollOutcome.resolved snap =>
      let acctIdOpt := match snap.result with
        | TaskResult.acct a _ _ => some a
        | TaskResult.generic _ => none
      if (snap.status = some "COMPLETED") ∧ (jsTruthy acctIdOpt = true) then
        let newSailPointAccountId := undefStr acctIdOpt
        let resIdOpt := match snap.result with
          | TaskResult.acct _ i _ => i
          | TaskResult.generic _ => none
        let idResolved : Option String :=
          if jsTruthy resIdOpt then resIdOpt
          else
            match simulateSearchIdentity step2.2
                { email := none, accountId := some newSailPointAccountId,
                  identityId := none } with
            | SearchResponse.found (r :: _) => r.id
            | _ =>
              match simulateSearchIdentity step2.2
                  { email := some email, accountId := none,
                    identityId := none } with
              | SearchResponse.found (r :: _) => r.id
              | _ => none
        if jsTruthy idResolved = true then
          let newContractorIdentityId := undefStr idResolved
          match grantLoop grant newContractorIdentityId inp.initialAccess with
          | Except.ok _ =>
            (Except.ok
               { mcpTrackingId := mcpTrackingId,
                 sailpointAccountId := newSailPointAccountId,
                 sailpointIdentityId := newContractorIdentityId }, step2.2)
          | Except.error e =>
            (Except.error (WorkflowError.apiError 500 e), step2.2)
        else
          (Except.error (WorkflowError.apiError 500
             ("Failed to retrieve SailPoint identity for the new contractor " ++
              "(simulated).")), step2.2)
      else
        (Except.error (WorkflowError.apiError 500
           "Contractor account creation failed at SailPoint (simulated)."),
         step2.2)
  else
    (Except.error (WorkflowError.badRequest
       "Missing required fields for contractor onboarding."), st)

/-- The 202 response body of the offboarding route. -/
structure OffboardAccepted where
  mcpTrackingId : String
  sailpointTaskActivityId : String
deriving DecidableEq

/-- Mirrors the offboarding route handler: validation, lifecycle change to the
terminated state, polling of `lcsResponse.data.id` (which is `undefined`,
coerced to the key `"undefined"`, when the lifecycle call answered 404), then
the 202 response.  `justification` and `revokeAllAccess` are informational
only.  `now` feeds the tracking id, `nowLcs` the `Date.now()` read inside
`simulateSetLifecycleState`. -/
def offboardContractor (st : SPState)
    (contractorSailPointIdentityId : Option String)
    (_justification : Option String) (_revokeAllAccess : Bool)
    (now nowLcs : Nat) : Except WorkflowError OffboardAccepted × SPState :=
  let mcpTrackingId := "mcp-offboarding-" ++ Nat.repr now
  if jsTruthy contractorSailPointIdentityId = true then
    let idStr := undefStr contractorSailPointIdentityId
    let step1 := simulateSetLifecycleState st idStr "terminated" nowLcs
    let lcsChangeTaskId := respId step1.1
    let step2 := pollTaskStatus step1.2 (undefStr lcsChangeTaskId) 5
    match step2.1 with
    | PollOutcome.timeout tid att =>
      (Except.error (WorkflowError.apiError 500
         ("Task " ++ tid ++ " did not complete after " ++ Nat.repr att ++
          " attempts.")), step2.2)
    | PollOutcome.resolved snap =>
      if snap.status = some "COMPLETED" then
        (Except.ok
           { mcpTrackingId := mcpTrackingId,
             sailpointTaskActivityId := undefStr lcsChangeTaskId }, step2.2)
      else
        (Except.error (WorkflowError.apiError 500
           ("Contractor offboarding failed at SailPoint " ++
            "(simulated lifecycle state change).")), step2.2)
  else
    (Except.error (WorkflowError.badRequest
       "contractorSailPointIdentityId is required."), st)

deriving instance DecidableEq for Except

/-- Task Ledger lookup: the status of the task record stored under a key,
searching `simulatedAccountsStore` first and then the task entries of
`simulatedIdentitiesStore`, exactly as `simulateGetTaskStatus` does. -/
def taskStatusOf (st : SPState) (taskId : String) : Option String :=
  match storeGet st.acctStore taskId with
  | some t => some t.status
  | none =>
    match storeGet st.identStore taskId with
    | some (IdentEntry.task t) => some t.status
    | _ => none

/-- States reachable from module initialisation through the provisioning
operations.  Identity search never mutates the stores, and both workflow
routes mutate only through these primitives. -/
inductive Reachable : SPState → Prop
  | init : Reachable initState
  | create (st : SPState) (d : AccountData) (now : Nat) :
      Reachable st → Reachable (simulateCreateAccount st d now).2
  | disable (st : SPState) (accountId : String) (now : Nat) :
      Reachable st → Reachable (simulateDisableAccount st accountId now).2
  | lcs (st : SPState) (identityId newState : String) (now : Nat) :
      Reachable st →
        Reachable (simulateSetLifecycleState st identityId newState now).2
  | query (st : SPState) (taskId : String) :
      Reachable st → Reachable (simulateGetTaskStatus st taskId).2

theorem storeGet_cons {α : Type} (p : String × α) (rest : List (String × α))
    (k : String) :
    storeGet (p :: rest) k = if p.1 = k then some p.2 else storeGet rest k :=
  rfl

theorem storeGet_storeSet_self {α : Type} (l : List (String × α)) (k : String)
    (v : α) : storeGet (storeSet l k v) k = some v := by
  induction l with
  | nil => simp [storeSet, storeGet]
  | cons p rest ih =>
    by_cases hp : p.1 = k
    · simp [storeSet, storeGet, hp]
    · simp [storeSet, storeGet, hp, ih]

theorem storeGet_storeSet_ne {α : Type} (l : List (String × α)) (k q : String)
    (v : α) (h : ¬ q = k) :
    storeGet (storeSet l k v) q = storeGet l q := by
  have hkq : ¬ k = q := fun hh => h hh.symm
  induction l with
  | nil => simp [storeSet, storeGet, hkq]
  | cons p rest ih =>
    by_cases hp : p.1 = k
    · have hpq : ¬ p.1 = q := by rw [hp]; exact hkq
      simp [storeSet, storeGet, hp, hkq, hpq]
    · by_cases hpq : p.1 = q
      · simp [storeSet, storeGet, hp, hpq, h]
      · simp [storeSet, storeGet, hp, hpq, ih]

theorem storeSet_absent {α : Type} (l : List (String × α)) (k : String)
    (v : α) (h : storeGet l k = none) : storeSet l k v = l ++ [(k, v)] := by
  induction l with
  | nil => simp [storeSet]
  | cons p rest ih =>
    rw [storeGet_cons] at h
    by_cases hp : p.1 = k
    · rw [if_pos hp] at h
      exact absurd h (by simp)
    · rw [if_neg hp] at h
      simp [storeSet, hp, ih h]

theorem storeGet_mem {α : Type} (l : List (String × α)) (k : String) (v : α)
    (h : storeGet l k = some v) : (k, v) ∈ l := by
  induction l with
  | nil => simp [storeGet] at h
  | cons p rest ih =>
    rw [storeGet_cons] at h
    by_cases hp : p.1 = k
    · rw [if_pos hp] at h
      have hv : p.2 = v := by injection h
      have hpkv : p = (k, v) := by
        cases p
        simp_all
      rw [hpkv]
      exact List.mem_cons_self _ _
    · rw [if_neg hp] at h
      exact List.mem_cons_of_mem p (ih h)

theorem getTaskStatus_snd_acct (st : SPState) (tid : String) (t : AcctTask)
    (hacct : storeGet st.acctStore tid = some t) :
    (simulateGetTaskStatus st tid).2 =
      { st with
          acctStore := storeSet st.acctStore tid
            { t with status := advanceStatus t.status } } := by
  unfold simulateGetTaskStatus
  rw [hacct]
  by_cases hid : t.accountId = ""
  · simp [hid]
  · cases hd : t.accountData with
    | none => simp [hid, hd]
    | some d => simp [hid, hd]

theorem getTaskStatus_snd_lcs (st : SPState) (tid : String) (t : LcsTask)
    (hacct : storeGet st.acctStore tid = none)
    (hid : storeGet st.identStore tid = some (IdentEntry.task t)) :
    (simulateGetTaskStatus st tid).2 =
      { st with
          identStore := storeSet st.identStore tid
            (IdentEntry.task { t with status := advanceStatus t.status }) } := by
  unfold simulateGetTaskStatus
  rw [hacct, hid]

theorem getTaskStatus_snd_other (st : SPState) (tid : String)
    (hacct : storeGet st.acctStore tid = none)
    (hid : ∀ t, ¬ storeGet st.identStore tid = some (IdentEntry.task t)) :
    (simulateGetTaskStatus st tid).2 = st := by
  unfold simulateGetTaskStatus
  rw [hacct]
  cases hq : storeGet st.identStore tid with
  | none => rfl
  | some e =>
    cases e with
    | ref n => rfl
    | task t => exact absurd hq (hid t)

/-- A status query advances the queried task by exactly one
`advanceStatus` step, whatever kind of task record holds it. -/
theorem taskStatusOf_step (st : SPState) (tid : String) (s : String)
    (h : taskStatusOf st tid = some s) :
    taskStatusOf (simulateGetTaskStatus st tid).2 tid
      = some (advanceStatus s) := by
  unfold taskStatusOf at h
  cases hacct : storeGet st.acctStore tid with
  | some t =>
    rw [hacct] at h
    have hs : t.status = s := by
      simpa using h
    rw [getTaskStatus_snd_acct st tid t hacct]
    unfold taskStatusOf
    simp [storeGet_storeSet_self, hs]
  | none =>
    rw [hacct] at h
    cases hident : storeGet st.identStore tid with
    | none => rw [hident] at h; simp at h
    | some e =>
      cases e with
      | ref n => rw [hident] at h; simp at h
      | task t =>
        rw [hident] at h
        have hs : t.status = s := by simpa using h
        rw [getTaskStatus_snd_lcs st tid t hacct hident]
        unfold taskStatusOf
        simp [storeGet_storeSet_ne, hacct, storeGet_storeSet_self, hs]

/-- A status query leaves every other ledger entry untouched. -/
theorem taskStatusOf_frame (st : SPState) (tid q : String) (h : ¬ q = tid) :
    taskStatusOf (simulateGetTaskStatus st tid).2 q = taskStatusOf st q := by
  cases hacct : storeGet st.acctStore tid with
  | some t =>
    rw [getTaskStatus_snd_acct st tid t hacct]
    unfold taskStatusOf
    simp [storeGet_storeSet_ne _ _ _ _ h]
  | none =>
    cases hident : storeGet st.identStore tid with
    | some e =>
      cases e with
      | ref n =>
        rw [getTaskStatus_snd_other st tid hacct (by simp [hident])]
      | task t =>
        rw [getTaskStatus_snd_lcs st tid t hacct hident]
        unfold taskStatusOf
        simp [storeGet_storeSet_ne _ _ _ _ h]
    | none =>
      rw [getTaskStatus_snd_other st tid hacct (by simp [hident])]

/-- The identity object allocated by `simulateCreateAccount` (name derived
from `displayName` or `givenName` plus `sn`/`lastName`; one enabled account on
the requested source). -/
def createdIdentity (st : SPState) (d : AccountData) : Identity :=
  let attrs := d.attributes
  let nm := jsOrStr (attrGet attrs "displayName")
      (undefStr (attrGet attrs "givenName") ++ " " ++
       undefStr (jsOr (attrGet attrs "sn") (attrGet attrs "lastName")))
  { id := mkIdentityId st.identityCounter, name := nm,
    email := attrGet attrs "mail", attributes := attrs,
    lifecycleState := "active", manager := none,
    sourceAccountId := some (mkAccountId st.accountCounter),
    accounts := [{ id := mkAccountId st.accountCounter,
                   nativeIdentity := jsOrStr (attrGet attrs "sAMAccountName")
                     (mkAccountId st.accountCounter),
                   sourceId := d.sourceId, sourceName := d.sourceId,
                   status := "enabled" }],
    access := [] }

theorem createAccount_snd_heap (st : SPState) (d : AccountData) (now : Nat) :
    (simulateCreateAccount st d now).2.heap =
      st.heap ++ [createdIdentity st d] := rfl

theorem createAccount_snd_identStore (st : SPState) (d : AccountData)
    (now : Nat) :
    (simulateCreateAccount st d now).2.identStore =
      storeSet (storeSet st.identStore (mkAccountId st.accountCounter)
          (IdentEntry.ref st.heap.length))
        (mkIdentityId st.identityCounter) (IdentEntry.ref st.heap.length) := rfl

theorem createAccount_snd_acctStore (st : SPState) (d : AccountData)
    (now : Nat) :
    (simulateCreateAccount st d now).2.acctStore =
      storeSet st.acctStore ("account-creation-task-" ++ Nat.repr now)
        { status := "QUEUED", accountId := mkAccountId st.accountCounter,
          accountData := some d, type := none, name := none } := rfl

theorem createAccount_snd_counters (st : SPState) (d : AccountData)
    (now : Nat) :
    (simulateCreateAccount st d now).2.accountCounter = st.accountCounter + 1
      ∧ (simulateCreateAccount st d now).2.identityCounter
          = st.identityCounter + 1 := ⟨rfl, rfl⟩

theorem disableScan_spec (st : SPState) (aid key : String) (n : Nat)
    (h : disableScan st aid = some (key, n)) :
    ∃ i, st.heap[n]? = some i
      ∧ i.accounts.any (fun a => a.id = aid) = true := by
  unfold disableScan at h
  cases hf : st.identStore.find? (fun p =>
      match p.2 with
      | IdentEntry.ref m =>
        match st.heap.get? m with
        | some i => i.accounts.any (fun a => a.id = aid)
        | none => false
      | IdentEntry.task _ => false) with
  | none => rw [hf] at h; simp at h
  | some p =>
    rw [hf] at h
    have hpred := List.find?_some hf
    simp only [Option.some_bind] at h
    cases hp2 : p.2 with
    | ref m =>
      rw [hp2] at h hpred
      simp at h hpred
      rcases h with ⟨_, hn⟩
      subst hn
      cases hg : st.heap[m]? with
      | none => rw [hg] at hpred; simp at hpred
      | some i =>
        rw [hg] at hpred
        simp at hpred
        exact ⟨i, rfl, by simpa using hpred⟩
    | task t => rw [hp2] at h; simp at h

theorem disableAccount_snd_found (st : SPState) (aid : String) (now : Nat)
    (key : String) (n : Nat) (i : Identity)
    (h : disableScan st aid = some (key, n)) (hi : st.heap[n]? = some i) :
    (simulateDisableAccount st aid now).2 =
      { st with
          heap := st.heap.set n { i with accounts := disableFirst i.accounts aid }
          acctStore := storeSet st.acctStore
            ("disable-account-task-" ++ Nat.repr now)
            { status := "QUEUED", accountId := aid, accountData := none,
              type := some "ACCOUNT_DISABLE_TASK",
              name := some ("Disable account " ++ aid) } } := by
  unfold simulateDisableAccount
  simp [h, hi]

theorem disableAccount_none (st : SPState) (aid : String) (now : Nat)
    (h : disableScan st aid = none) :
    (simulateDisableAccount st aid now)
      = (OpResponse.notFound
           ("Account " ++ aid ++ " not found for disabling (simulated)."),
         st) := by
  unfold simulateDisableAccount
  rw [h]

theorem findIdentityById_task_direct (st : SPState) (i : String) (t : LcsTask)
    (h : findIdentityById st i = some (IdentEntry.task t)) :
    storeGet st.identStore i = some (IdentEntry.task t) := by
  unfold findIdentityById at h
  cases hd : storeGet st.identStore i with
  | some e => rw [hd] at h; simpa using h
  | none =>
    rw [hd] at h
    cases hf : st.identStore.find?
        (fun p => entryIdProp st.heap p.2 = some i) with
    | none => rw [hf] at h; simp at h
    | some p =>
      rw [hf] at h
      have hpred := List.find?_some hf
      simp at h
      rw [h] at hpred
      simp [entryIdProp] at hpred

/-- The lifecycle task record enqueued by `simulateSetLifecycleState`. -/
def lcsTaskRec (identityId newState nm : String) : IdentEntry :=
  IdentEntry.task
    { status := "QUEUED", identityId := identityId,
      type := "LIFECYCLE_STATE_CHANGE_TASK",
      name := "Set lifecycle state to " ++ newState ++ " for " ++ nm,
      lifecycleState := none }

theorem setLifecycleState_none (st : SPState) (i newState : String)
    (now : Nat) (h : findIdentityById st i = none) :
    (simulateSetLifecycleState st i newState now)
      = (OpResponse.notFound
           ("Identity " ++ i ++
            " not found for lifecycle state change (simulated)."), st) := by
  unfold simulateSetLifecycleState
  rw [h]

theorem setLifecycleState_snd_ref (st : SPState) (i newState : String)
    (now : Nat) (n : Nat) (ii : Identity)
    (h : findIdentityById st i = some (IdentEntry.ref n))
    (hg : st.heap[n]? = some ii) :
    (simulateSetLifecycleState st i newState now).2 =
      { st with
          heap := st.heap.set n
            { ii with
                lifecycleState := newState
                accounts :=
                  if newState = "terminated" then
                    ii.accounts.map (fun a => { a with status := "disabled" })
                  else ii.accounts }
          identStore := storeSet st.identStore ("set-lcs-task-" ++ Nat.repr now)
            (lcsTaskRec i newState ii.name) } := by
  unfold simulateSetLifecycleState
  simp [h, hg, lcsTaskRec]

theorem setLifecycleState_snd_refNone (st : SPState) (i newState : String)
    (now : Nat) (n : Nat)
    (h : findIdentityById st i = some (IdentEntry.ref n))
    (hg : st.heap[n]? = none) :
    (simulateSetLifecycleState st i newState now).2 =
      { st with
          identStore := storeSet st.identStore ("set-lcs-task-" ++ Nat.repr now)
            (lcsTaskRec i newState "undefined") } := by
  unfold simulateSetLifecycleState
  simp [h, hg, lcsTaskRec]

theorem setLifecycleState_snd_task (st : SPState) (i newState : String)
    (now : Nat) (t : LcsTask)
    (h : findIdentityById st i = some (IdentEntry.task t)) :
    (simulateSetLifecycleState st i newState now).2 =
      { st with
          identStore := storeSet
            (storeSet st.identStore i
              (IdentEntry.task { t with lifecycleState := some newState }))
            ("set-lcs-task-" ++ Nat.repr now) (lcsTaskRec i newState t.name) } := by
  unfold simulateSetLifecycleState
  simp [h, lcsTaskRec]

/-- The three staged statuses of the task state machine. -/
def statusOK (s : String) : Prop :=
  s = "QUEUED" ∨ s = "PROCESSING" ∨ s = "COMPLETED"

/-- Every record in the Task Ledger carries one of the three staged
statuses. -/
def TaskStatusesValid (st : SPState) : Prop :=
  ∀ tid s, taskStatusOf st tid = some s → statusOK s

theorem advanceStatus_ok (s : String) (h : statusOK s) :
    statusOK (advanceStatus s) := by
  rcases h with h | h | h <;> subst h <;> unfold statusOK advanceStatus <;> simp

theorem taskStatusOf_init (tid : String) : taskStatusOf initState tid = none := by
  unfold taskStatusOf
  have hacct : storeGet initState.acctStore tid = none := rfl
  rw [hacct]
  cases hq : storeGet initState.identStore tid with
  | none => rfl
  | some e =>
    have hmem := storeGet_mem _ _ _ hq
    have : e = IdentEntry.ref 0 ∨ e = IdentEntry.ref 1 := by
      simp [initState] at hmem
      rcases hmem with ⟨_, he⟩ | ⟨_, he⟩
      · exact Or.inl he
      · exact Or.inr he
    rcases this with he | he <;> subst he <;> rfl

theorem taskStatusOf_step_none (st : SPState) (tid : String)
    (h : taskStatusOf st tid = none) :
    (simulateGetTaskStatus st tid).2 = st := by
  unfold taskStatusOf at h
  cases hacct : storeGet st.acctStore tid with
  | some t => rw [hacct] at h; simp at h
  | none =>
    rw [hacct] at h
    apply getTaskStatus_snd_other st tid hacct
    intro t ht
    rw [ht] at h
    simp at h

theorem createAccount_preserves_valid (st : SPState) (d : AccountData)
    (now : Nat) (h : TaskStatusesValid st) :
    TaskStatusesValid (simulateCreateAccount st d now).2 := by
  intro tid s hs
  unfold taskStatusOf at hs
  rw [createAccount_snd_acctStore, createAccount_snd_identStore] at hs
  by_cases h1 : tid = "account-creation-task-" ++ Nat.repr now
  · subst h1
    rw [storeGet_storeSet_self] at hs
    simp at hs
    subst hs
    exact Or.inl rfl
  · rw [storeGet_storeSet_ne _ _ _ _ h1] at hs
    cases hacct : storeGet st.acctStore tid with
    | some t =>
      rw [hacct] at hs
      exact h tid s (by unfold taskStatusOf; rw [hacct]; exact hs)
    | none =>
      rw [hacct] at hs
      by_cases h2 : tid = mkIdentityId st.identityCounter
      · subst h2; rw [storeGet_storeSet_self] at hs; simp at hs
      · rw [storeGet_storeSet_ne _ _ _ _ h2] at hs
        by_cases h3 : tid = mkAccountId st.accountCounter
        · subst h3; rw [storeGet_storeSet_self] at hs; simp at hs
        · rw [storeGet_storeSet_ne _ _ _ _ h3] at hs
          exact h tid s (by unfold taskStatusOf; rw [hacct]; exact hs)

theorem disableAccount_preserves_valid (st : SPState) (aid : String)
    (now : Nat) (h : TaskStatusesValid st) :
    TaskStatusesValid (simulateDisableAccount st aid now).2 := by
  intro tid s hs
  cases hscan : disableScan st aid with
  | none =>
    rw [disableAccount_none st aid now hscan] at hs
    exact h tid s hs
  | some kn =>
    obtain ⟨key, n⟩ := kn
    obtain ⟨i, hi, _⟩ := disableScan_spec st aid key n hscan
    rw [disableAccount_snd_found st aid now key n i hscan hi] at hs
    unfold taskStatusOf at hs
    simp only [] at hs
    by_cases h1 : tid = "disable-account-task-" ++ Nat.repr now
    · subst h1
      rw [storeGet_storeSet_self] at hs
      simp at hs
      subst hs
      exact Or.inl rfl
    · rw [storeGet_storeSet_ne _ _ _ _ h1] at hs
      exact h tid s (by unfold taskStatusOf; exact hs)

theorem setLifecycleState_preserves_valid (st : SPState)
    (i newState : String) (now : Nat) (h : TaskStatusesValid st) :
    TaskStatusesValid (simulateSetLifecycleState st i newState now).2 := by
  intro tid s hs
  cases hfind : findIdentityById st i with
  | none =>
    rw [setLifecycleState_none st i newState now hfind] at hs
    exact h tid s hs
  | some e =>
    cases e with
    | ref n =>
      cases hg : st.heap[n]? with
      | some ii =>
        rw [setLifecycleState_snd_ref st i newState now n ii hfind hg] at hs
        unfold taskStatusOf at hs
        simp only [] at hs
        by_cases h1 : tid = "set-lcs-task-" ++ Nat.repr now
        · cases hacct : storeGet st.acctStore tid with
          | some t =>
            rw [hacct] at hs
            exact h tid s (by unfold taskStatusOf; rw [hacct]; exact hs)
          | none =>
            rw [hacct] at hs
            rw [h1] at hs
            rw [storeGet_storeSet_self] at hs
            simp [lcsTaskRec] at hs
            subst hs
            exact Or.inl rfl
        · cases hacct : storeGet st.acctStore tid with
          | some t =>
            rw [hacct] at hs
            exact h tid s (by unfold taskStatusOf; rw [hacct]; exact hs)
          | none =>
            rw [hacct] at hs
            rw [storeGet_storeSet_ne _ _ _ _ h1] at hs
            exact h tid s (by unfold taskStatusOf; rw [hacct]; exact hs)
      | none =>
        rw [setLifecycleState_snd_refNone st i newState now n hfind hg] at hs
        unfold taskStatusOf at hs
        simp only [] at hs
        by_cases h1 : tid = "set-lcs-task-" ++ Nat.repr now
        · cases hacct : storeGet st.acctStore tid with
          | some t =>
            rw [hacct] at hs
            exact h tid s (by unfold taskStatusOf; rw [hacct]; exact hs)
          | none =>
            rw [hacct] at hs
            rw [h1] at hs
            rw [storeGet_storeSet_self] at hs
            simp [lcsTaskRec] at hs
            subst hs
            exact Or.inl rfl
        · cases hacct : storeGet st.acctStore tid with
          | some t =>
            rw [hacct] at hs
            exact h tid s (by unfold taskStatusOf; rw [hacct]; exact hs)
          | none =>
            rw [hacct] at hs
            rw [storeGet_storeSet_ne _ _ _ _ h1] at hs
            exact h tid s (by unfold taskStatusOf; rw [hacct]; exact hs)
    | task t =>
      rw [setLifecycleState_snd_task st i newState now t hfind] at hs
      unfold taskStatusOf at hs
      simp only [] at hs
      by_cases h1 : tid = "set-lcs-task-" ++ Nat.repr now
      · cases hacct : storeGet st.acctStore tid with
        | some tt =>
          rw [hacct] at hs
          exact h tid s (by unfold taskStatusOf; rw [hacct]; exact hs)
        | none =>
          rw [hacct] at hs
          rw [h1] at hs
          rw [storeGet_storeSet_self] at hs
          simp [lcsTaskRec] at hs
          subst hs
          exact Or.inl rfl
      · cases hacct : storeGet st.acctStore tid with
        | some tt =>
          rw [hacct] at hs
          exact h tid s (by unfold taskStatusOf; rw [hacct]; exact hs)
        | none =>
          rw [hacct] at hs
          rw [storeGet_storeSet_ne _ _ _ _ h1] at hs
          by_cases h2 : tid = i
          · rw [h2] at hs hacct
            rw [storeGet_storeSet_self] at hs
            simp at hs
            have hv := h i t.status (by
              unfold taskStatusOf
              rw [hacct, findIdentityById_task_direct st i t hfind])
            subst hs
            simpa using hv
          · rw [storeGet_storeSet_ne _ _ _ _ h2] at hs
            exact h tid s (by unfold taskStatusOf; rw [hacct]; exact hs)

theorem getTaskStatus_preserves_valid (st : SPState) (taskId : String)
    (h : TaskStatusesValid st) :
    TaskStatusesValid (simulateGetTaskStatus st taskId).2 := by
  intro tid s hs
  by_cases hq : tid = taskId
  · subst hq
    cases hold : taskStatusOf st tid with
    | none => rw [taskStatusOf_step_none st tid hold] at hs; rw [hold] at hs; simp at hs
    | some s0 =>
      rw [taskStatusOf_step st tid s0 hold] at hs
      simp at hs
      rw [← hs]
      exact advanceStatus_ok s0 (h tid s0 hold)
  · rw [taskStatusOf_frame st taskId tid hq] at hs
    exact h tid s hs

/-- Reachable states have only the three staged statuses in the ledger. -/
theorem reachable_taskStatusesValid (st : SPState) (h : Reachable st) :
    TaskStatusesValid st := by
  induction h with
  | init =>
    intro tid s hs
    rw [taskStatusOf_init] at hs
    simp at hs
  | create st d now _ ih => exact createAccount_preserves_valid st d now ih
  | disable st aid now _ ih => exact disableAccount_preserves_valid st aid now ih
  | lcs st i newState now _ ih =>
    exact setLifecycleState_preserves_valid st i newState now ih
  | query st taskId _ ih => exact getTaskStatus_preserves_valid st taskId ih

/-- Base-10 value of a digit-character list, a left inverse of
`Nat.toDigits 10` used to prove that generated ids never collide. -/
def digitsVal : List Char → Nat
  | [] => 0
  | c :: cs => (c.toNat - 48) * 10 ^ cs.length + digitsVal cs

theorem digitsVal_append_digit (l : List Char) (c : Char) :
    digitsVal (l ++ [c]) = digitsVal l * 10 + (c.toNat - 48) := by
  induction l with
  | nil => simp [digitsVal]
  | cons d ds ih =>
    rw [show ((d :: ds) ++ [c] : List Char) = d :: (ds ++ [c]) from rfl]
    rw [digitsVal, digitsVal, ih, List.length_append]
    simp only [List.length_cons, List.length_nil, pow_succ, pow_zero]
    ring

theorem toDigitsCore_acc (fuel : Nat) : ∀ (n : Nat) (ds : List Char),
    Nat.toDigitsCore 10 fuel n ds = Nat.toDigitsCore 10 fuel n [] ++ ds := by
  induction fuel with
  | zero => intro n ds; simp [Nat.toDigitsCore]
  | succ f ih =>
    intro n ds
    simp only [Nat.toDigitsCore]
    by_cases h : n / 10 = 0
    · simp [h]
    · simp only [h, if_neg, if_false]
      rw [ih (n / 10) (Nat.digitChar (n % 10) :: ds),
          ih (n / 10) [Nat.digitChar (n % 10)]]
      simp

theorem toDigitsCore_fuel : ∀ (n f1 f2 : Nat), n < f1 → n < f2 →
    Nat.toDigitsCore 10 f1 n [] = Nat.toDigitsCore 10 f2 n [] := by
  intro n
  induction n using Nat.strong_induction_on with
  | _ n ih =>
    intro f1 f2 h1 h2
    cases f1 with
    | zero => omega
    | succ g1 =>
      cases f2 with
      | zero => omega
      | succ g2 =>
        simp only [Nat.toDigitsCore]
        by_cases h : n / 10 = 0
        · simp [h]
        · simp only [h, if_neg, if_false]
          have hlt : n / 10 < n := by omega
          rw [toDigitsCore_acc g1 (n / 10) [Nat.digitChar (n % 10)],
              toDigitsCore_acc g2 (n / 10) [Nat.digitChar (n % 10)]]
          rw [ih (n / 10) hlt g1 g2 (by omega) (by omega)]

theorem toDigits_unfold (n : Nat) (h : ¬ n / 10 = 0) :
    Nat.toDigits 10 n
      = Nat.toDigits 10 (n / 10) ++ [Nat.digitChar (n % 10)] := by
  have hlt : n / 10 < n := by omega
  show Nat.toDigitsCore 10 (n + 1) n [] = _
  simp only [Nat.toDigitsCore]
  simp only [h, if_neg, if_false]
  rw [toDigitsCore_acc n (n / 10) [Nat.digitChar (n % 10)]]
  rw [toDigitsCore_fuel (n / 10) n (n / 10 + 1) hlt (Nat.lt_succ_self _)]
  rfl

theorem digitChar_val (m : Nat) (h : m < 10) :
    (Nat.digitChar m).toNat - 48 = m := by
  interval_cases m <;> rfl

theorem digitsVal_toDigits (n : Nat) : digitsVal (Nat.toDigits 10 n) = n := by
  induction n using Nat.strong_induction_on with
  | _ n ih =>
    by_cases h : n / 10 = 0
    · have hn : n < 10 := by omega
      unfold Nat.toDigits
      simp only [Nat.toDigitsCore]
      simp only [h, if_pos]
      have hmod : n % 10 = n := Nat.mod_eq_of_lt hn
      rw [hmod]
      simp [digitsVal, digitChar_val n hn]
    · rw [toDigits_unfold n h, digitsVal_append_digit]
      have hlt : n / 10 < n := by omega
      rw [ih (n / 10) hlt]
      rw [digitChar_val (n % 10) (Nat.mod_lt n (by norm_num))]
      omega

theorem toDigits_ne_nil (n : Nat) : ¬ Nat.toDigits 10 n = [] := by
  unfold Nat.toDigits
  simp only [Nat.toDigitsCore]
  by_cases h : n / 10 = 0
  · simp [h]
  · simp only [h, if_neg, if_false]
    rw [toDigitsCore_acc]
    simp

theorem repr_injective (a b : Nat) (h : Nat.repr a = Nat.repr b) : a = b := by
  unfold Nat.repr at h
  have hdata : Nat.toDigits 10 a = Nat.toDigits 10 b := by
    have hd := congrArg String.data h
    simpa [List.asString] using hd
  have hval := congrArg digitsVal hdata
  rwa [digitsVal_toDigits, digitsVal_toDigits] at hval

theorem string_data_append (s t : String) : (s ++ t).data = s.data ++ t.data := by
  cases s with
  | mk a =>
    cases t with
    | mk b => rfl

theorem string_eq_of_data (s t : String) (h : s.data = t.data) : s = t := by
  cases s with
  | mk a =>
    cases t with
    | mk b => exact congrArg String.mk h

theorem repr_length_pos (n : Nat) : 0 < (Nat.repr n).length := by
  unfold Nat.repr
  have hne := toDigits_ne_nil n
  cases hd : Nat.toDigits 10 n with
  | nil => exact absurd hd hne
  | cons c cs => simp [List.asString, String.length, hd]

theorem mkAccountId_inj (a b : Nat) (h : mkAccountId a = mkAccountId b) :
    a = b := by
  unfold mkAccountId at h
  have hd := congrArg String.data h
  rw [string_data_append, string_data_append] at hd
  have hrd : (Nat.repr a).data = (Nat.repr b).data :=
    List.append_cancel_left hd
  exact repr_injective a b (string_eq_of_data _ _ hrd)

theorem mkAccountId_length (k : Nat) : 21 ≤ (mkAccountId k).length := by
  unfold mkAccountId
  rw [String.length_append]
  have h1 : ("simulated-accountId-" : String).length = 20 := rfl
  have h2 := repr_length_pos k
  omega

theorem mkAccountId_ne_empty (k : Nat) : ¬ mkAccountId k = "" := by
  intro h
  have hlen := mkAccountId_length k
  rw [congrArg String.length h] at hlen
  have h0 : ("" : String).length = 0 := rfl
  omega

theorem mkIdentityId_inj (a b : Nat) (h : mkIdentityId a = mkIdentityId b) :
    a = b := by
  unfold mkIdentityId at h
  have hd := congrArg String.data h
  rw [string_data_append, string_data_append] at hd
  have hrd : (Nat.repr a).data = (Nat.repr b).data :=
    List.append_cancel_left hd
  exact repr_injective a b (string_eq_of_data _ _ hrd)

theorem mkIdentityId_ne_empty (k : Nat) : ¬ mkIdentityId k = "" := by
  intro h
  have hlen := congrArg String.length h
  unfold mkIdentityId at hlen
  rw [String.length_append] at hlen
  have h2 := repr_length_pos k
  have h1 : ("simulated-identityId-" : String).length = 21 := rfl
  have h0 : ("" : String).length = 0 := rfl
  omega

theorem mkAccountId_ne_seeds (k : Nat) :
    ¬ mkAccountId k = "sim-acc-mgr-0"
      ∧ ¬ mkAccountId k = "sim-acc-jd1-1"
      ∧ ¬ mkAccountId k = "sim-acc-jd2-2" := by
  have hlen := mkAccountId_length k
  have h1 : ("sim-acc-mgr-0" : String).length = 13 := rfl
  have h2 : ("sim-acc-jd1-1" : String).length = 13 := rfl
  have h3 : ("sim-acc-jd2-2" : String).length = 13 := rfl
  refine ⟨?_, ?_, ?_⟩ <;>
    · intro h
      rw [congrArg String.length h] at hlen
      omega

/-- Account-id lists of the identity heap, identity by identity (positional,
for disjointness reasoning). -/
def heapAccountIdLists (st : SPState) : List (List String) :=
  st.heap.map (fun j => j.accounts.map (fun a => a.id))

/-- All account ids stored anywhere in the identity heap. -/
def heapAccountIds (st : SPState) : List String :=
  (heapAccountIdLists st).flatten

/-- Well-formedness of account ids: no id occurs twice anywhere in the heap,
and every id is one of the three seeded ids or was generated from a counter
value below the current account counter. -/
def AccountIdsOK (st : SPState) : Prop :=
  (heapAccountIds st).Nodup ∧
  ∀ a ∈ heapAccountIds st,
    a = "sim-acc-mgr-0" ∨ a = "sim-acc-jd1-1" ∨ a = "sim-acc-jd2-2" ∨
    ∃ k, k < st.accountCounter ∧ a = mkAccountId k

theorem accountsUnique (st : SPState) (h : (heapAccountIds st).Nodup) :
    ∀ (k1 k2 : Nat) (i1 i2 : Identity) (a1 a2 : Account),
      st.heap[k1]? = some i1 → st.heap[k2]? = some i2 →
      a1 ∈ i1.accounts → a2 ∈ i2.accounts → a1.id = a2.id →
      k1 = k2 ∧ a1 = a2 := by
  intro k1 k2 i1 i2 a1 a2 h1 h2 m1 m2 hid
  unfold heapAccountIds heapAccountIdLists at h
  rw [List.nodup_flatten] at h
  rcases h with ⟨hall, hpw⟩
  rw [List.pairwise_iff_getElem] at hpw
  obtain ⟨hk1, hg1⟩ := List.getElem?_eq_some_iff.mp h1
  obtain ⟨hk2, hg2⟩ := List.getElem?_eq_some_iff.mp h2
  have hlen : (st.heap.map (fun j => j.accounts.map (fun a => a.id))).length
      = st.heap.length := List.length_map _ _
  have hb1 : k1 < (st.heap.map (fun j => j.accounts.map (fun a => a.id))).length := by
    omega
  have hb2 : k2 < (st.heap.map (fun j => j.accounts.map (fun a => a.id))).length := by
    omega
  have hL1 : (st.heap.map (fun j => j.accounts.map (fun a => a.id)))[k1]
      = i1.accounts.map (fun a => a.id) := by
    rw [List.getElem_map]
    rw [hg1]
  have hL2 : (st.heap.map (fun j => j.accounts.map (fun a => a.id)))[k2]
      = i2.accounts.map (fun a => a.id) := by
    rw [List.getElem_map]
    rw [hg2]
  rcases Nat.lt_trichotomy k1 k2 with hlt | heq | hgt
  · exfalso
    have hdisj := hpw k1 k2 (by omega) (by omega) hlt
    rw [hL1, hL2] at hdisj
    exact hdisj (List.mem_map_of_mem _ m1)
      (by rw [hid]; exact List.mem_map_of_mem _ m2)
  · subst heq
    have hii : i1 = i2 := by
      rw [h1] at h2
      injection h2
    subst hii
    refine ⟨rfl, ?_⟩
    have hmem : i1.accounts.map (fun a => a.id)
        ∈ st.heap.map (fun j => j.accounts.map (fun a => a.id)) :=
      List.mem_map_of_mem _ (List.getElem?_mem h1)
    exact List.inj_on_of_nodup_map (hall _ hmem) m1 m2 hid
  · exfalso
    have hdisj := hpw k2 k1 (by omega) (by omega) hgt
    rw [hL1, hL2] at hdisj
    exact hdisj (List.mem_map_of_mem _ m2)
      (by rw [← hid]; exact List.mem_map_of_mem _ m1)

theorem map_set_eq {α β : Type} (f : α → β) :
    ∀ (l : List α) (n : Nat) (x y : α), l[n]? = some y → f x = f y →
      (l.set n x).map f = l.map f := by
  intro l
  induction l with
  | nil => intro n x y h _; simp at h
  | cons a as ih =>
    intro n x y h hf
    cases n with
    | zero =>
      simp at h
      subst h
      simp [List.set, hf]
    | succ m =>
      simp at h
      simp [List.set, ih m x y h hf]

theorem disableFirst_map_id (l : List Account) (aid : String) :
    (disableFirst l aid).map (fun a => a.id) = l.map (fun a => a.id) := by
  induction l with
  | nil => rfl
  | cons a rest ih =>
    by_cases h : a.id = aid
    · simp [disableFirst, h]
    · simp [disableFirst, h, ih]

theorem map_id_disable (l : List Account) :
    (l.map (fun a => { a with status := "disabled" })).map (fun a => a.id)
      = l.map (fun a => a.id) := by
  rw [List.map_map]
  rfl

theorem getTaskStatus_heap_counters (st : SPState) (tid : String) :
    (simulateGetTaskStatus st tid).2.heap = st.heap
      ∧ (simulateGetTaskStatus st tid).2.accountCounter = st.accountCounter := by
  cases hacct : storeGet st.acctStore tid with
  | some t => rw [getTaskStatus_snd_acct st tid t hacct]; exact ⟨rfl, rfl⟩
  | none =>
    cases hident : storeGet st.identStore tid with
    | some e =>
      cases e with
      | ref n =>
        rw [getTaskStatus_snd_other st tid hacct (by simp [hident])]
        exact ⟨rfl, rfl⟩
      | task t =>
        rw [getTaskStatus_snd_lcs st tid t hacct hident]
        exact ⟨rfl, rfl⟩
    | none =>
      rw [getTaskStatus_snd_other st tid hacct (by simp [hident])]
      exact ⟨rfl, rfl⟩

theorem accountIdsOK_init : AccountIdsOK initState := by
  constructor
  · decide
  · intro a ha
    have : a = "sim-acc-mgr-0" ∨ a = "sim-acc-jd1-1" ∨ a = "sim-acc-jd2-2" := by
      simp [heapAccountIds, heapAccountIdLists, initState, managerIdentity,
        user1Identity] at ha
      tauto
    tauto

theorem createAccount_preserves_ids (st : SPState) (d : AccountData)
    (now : Nat) (h : AccountIdsOK st) :
    AccountIdsOK (simulateCreateAccount st d now).2 := by
  obtain ⟨hnd, hbound⟩ := h
  have hids : heapAccountIds (simulateCreateAccount st d now).2
      = heapAccountIds st ++ [mkAccountId st.accountCounter] := by
    unfold heapAccountIds heapAccountIdLists
    rw [createAccount_snd_heap, List.map_append, List.flatten_append]
    rfl
  have hctr : (simulateCreateAccount st d now).2.accountCounter
      = st.accountCounter + 1 := (createAccount_snd_counters st d now).1
  constructor
  · rw [hids, List.nodup_append]
    refine ⟨hnd, by simp, ?_⟩
    intro x hx hmemnew
    simp at hmemnew
    subst hmemnew
    rcases hbound _ hx with h1 | h1 | h1 | ⟨k, hk, h1⟩
    · exact (mkAccountId_ne_seeds st.accountCounter).1 h1
    · exact (mkAccountId_ne_seeds st.accountCounter).2.1 h1
    · exact (mkAccountId_ne_seeds st.accountCounter).2.2 h1
    · have := mkAccountId_inj _ _ h1
      omega
  · intro a ha
    rw [hids] at ha
    rw [hctr]
    rcases List.mem_append.mp ha with ha | ha
    · rcases hbound a ha with h1 | h1 | h1 | ⟨k, hk, h1⟩
      · exact Or.inl h1
      · exact Or.inr (Or.inl h1)
      · exact Or.inr (Or.inr (Or.inl h1))
      · exact Or.inr (Or.inr (Or.inr ⟨k, by omega, h1⟩))
    · simp at ha
      exact Or.inr (Or.inr (Or.inr ⟨st.accountCounter, by omega, ha⟩))

theorem disableAccount_preserves_ids (st : SPState) (aid : String)
    (now : Nat) (h : AccountIdsOK st) :
    AccountIdsOK (simulateDisableAccount st aid now).2 := by
  cases hscan : disableScan st aid with
  | none =>
    have hsnd : (simulateDisableAccount st aid now).2 = st := by
      rw [disableAccount_none st aid now hscan]
    rw [hsnd]
    exact h
  | some kn =>
    obtain ⟨key, n⟩ := kn
    obtain ⟨i, hi, _⟩ := disableScan_spec st aid key n hscan
    rw [disableAccount_snd_found st aid now key n i hscan hi]
    obtain ⟨hnd, hbound⟩ := h
    have hids : heapAccountIdLists
        ({ st with
             heap := st.heap.set n
               { i with accounts := disableFirst i.accounts aid }
             acctStore := storeSet st.acctStore
               ("disable-account-task-" ++ Nat.repr now)
               { status := "QUEUED", accountId := aid, accountData := none,
                 type := some "ACCOUNT_DISABLE_TASK",
                 name := some ("Disable account " ++ aid) } } : SPState)
        = heapAccountIdLists st := by
    
      unfold heapAccountIdLists
      exact map_set_eq _ st.heap n _ i hi (disableFirst_map_id i.accounts aid)
    constructor
    · unfold heapAccountIds
      rw [hids]
      exact hnd
    · intro a ha
      unfold heapAccountIds at ha
      rw [hids] at ha
      exact hbound a ha

theorem setLifecycleState_preserves_ids (st : SPState)
    (i newState : String) (now : Nat) (h : AccountIdsOK st) :
    AccountIdsOK (simulateSetLifecycleState st i newState now).2 := by
  cases hfind : findIdentityById st i with
  | none =>
    have hsnd : (simulateSetLifecycleState st i newState now).2 = st := by
      rw [setLifecycleState_none st i newState now hfind]
    rw [hsnd]
    exact h
  | some e =>
    cases e with
    | ref n =>
      cases hg : st.heap[n]? with
      | some ii =>
        rw [setLifecycleState_snd_ref st i newState now n ii hfind hg]
        obtain ⟨hnd, hbound⟩ := h
        have hacc :
            ((if newState = "terminated" then
                ii.accounts.map (fun a => { a with status := "disabled" })
              else ii.accounts).map (fun a => a.id))
              = ii.accounts.map (fun a => a.id) := by
          by_cases ht : newState = "terminated"
          · rw [if_pos ht, map_id_disable]
          · rw [if_neg ht]
        have hids : heapAccountIdLists
            ({ st with
                 heap := st.heap.set n
                   { ii with
                       lifecycleState := newState
                       accounts :=
                         if newState = "terminated" then
                           ii.accounts.map
                             (fun a => { a with status := "disabled" })
                         else ii.accounts }
                 identStore := storeSet st.identStore
                   ("set-lcs-task-" ++ Nat.repr now)
                   (lcsTaskRec i newState ii.name) } : SPState)
            = heapAccountIdLists st := by
          unfold heapAccountIdLists
          exact map_set_eq _ st.heap n _ ii hg hacc
        constructor
        · unfold heapAccountIds
          rw [hids]
          exact hnd
        · intro a ha
          unfold heapAccountIds at ha
          rw [hids] at ha
          exact hbound a ha
      | none =>
        rw [setLifecycleState_snd_refNone st i newState now n hfind hg]
        exact h
    | task t =>
      rw [setLifecycleState_snd_task st i newState now t hfind]
      exact h

theorem getTaskStatus_preserves_ids (st : SPState) (tid : String)
    (h : AccountIdsOK st) :
    AccountIdsOK (simulateGetTaskStatus st tid).2 := by
  obtain ⟨hheap, hctr⟩ := getTaskStatus_heap_counters st tid
  obtain ⟨hnd, hbound⟩ := h
  have hids : heapAccountIdLists (simulateGetTaskStatus st tid).2
      = heapAccountIdLists st := by
    unfold heapAccountIdLists
    rw [hheap]
  constructor
  · unfold heapAccountIds
    rw [hids]
    exact hnd
  · intro a ha
    unfold heapAccountIds at ha
    rw [hids] at ha
    rw [hctr]
    exact hbound a ha

/-- Reachable states never hold two accounts with the same id, and every id is
seeded or generated below the counter. -/
theorem reachable_accountIdsOK (st : SPState) (h : Reachable st) :
    AccountIdsOK st := by
  induction h with
  | init => exact accountIdsOK_init
  | create st d now _ ih => exact createAccount_preserves_ids st d now ih
  | disable st aid now _ ih => exact disableAccount_preserves_ids st aid now ih
  | lcs st i newState now _ ih =>
    exact setLifecycleState_preserves_ids st i newState now ih
  | query st taskId _ ih => exact getTaskStatus_preserves_ids st taskId ih

/-- The `identityId` member of a task result (`undefined` on generic
results). -/
def resRecIdentityId : TaskResult → Option String
  | TaskResult.acct _ i _ => i
  | TaskResult.generic _ => none

/-- The `data[0].id` of a search response (`undefined` when the list is
empty or the first element has no id). -/
def searchFirstId : SearchResponse → Option String
  | SearchResponse.found (r :: _) => r.id
  | _ => none

/-- The `result.identityId` of a 200 task-status response. -/
def respResultIdentityId : Except JsErr TaskResponse → Option String
  | Except.ok (TaskResponse.ok snap) => resRecIdentityId snap.result
  | _ => none

/-- The `status` of a 200 task-status response. -/
def respStatus : Except JsErr TaskResponse → Option String
  | Except.ok (TaskResponse.ok snap) => snap.status
  | _ => none

theorem pollLoop_notFound (taskId : String) (total : Nat) (st : SPState)
    (h1 : storeGet st.acctStore taskId = none)
    (h2 : storeGet st.identStore taskId = none) :
    ∀ k, pollLoop taskId total k st = (PollOutcome.timeout taskId total, st) := by
  have hq : simulateGetTaskStatus st taskId
      = (Except.ok (TaskResponse.notFound
           ("Task " ++ taskId ++ " not found (simulated).")), st) := by
    unfold simulateGetTaskStatus
    rw [h1, h2]
  intro k
  induction k with
  | zero => rfl
  | succ m ih =>
    unfold pollLoop
    rw [hq]
    exact ih

theorem pollLoop_step_complete (tid : String) (total k : Nat)
    (st st1 : SPState) (snap : TaskSnapshot)
    (h : simulateGetTaskStatus st tid = (Except.ok (TaskResponse.ok snap), st1))
    (hs : snap.status = some "COMPLETED") :
    pollLoop tid total (k + 1) st = (PollOutcome.resolved snap, st1) := by
  rw [pollLoop, h]
  simp [hs]

theorem pollLoop_step_notComplete (tid : String) (total k : Nat)
    (st st1 : SPState) (snap : TaskSnapshot)
    (h : simulateGetTaskStatus st tid = (Except.ok (TaskResponse.ok snap), st1))
    (hs : ¬ snap.status = some "COMPLETED") :
    pollLoop tid total (k + 1) st = pollLoop tid total k st1 := by
  rw [pollLoop, h]
  simp [hs]

theorem pollLoop_step_notFound (tid : String) (total k : Nat)
    (st st1 : SPState) (msg : String)
    (h : simulateGetTaskStatus st tid
        = (Except.ok (TaskResponse.notFound msg), st1)) :
    pollLoop tid total (k + 1) st = pollLoop tid total k st1 := by
  rw [pollLoop, h]

theorem pollLoop_step_error (tid : String) (total k : Nat)
    (st st1 : SPState) (e : JsErr)
    (h : simulateGetTaskStatus st tid = (Except.error e, st1)) :
    pollLoop tid total (k + 1) st = pollLoop tid total k st1 := by
  rw [pollLoop, h]

theorem pollLoop_cases (tid : String) (total : Nat) :
    ∀ (k : Nat) (st : SPState),
      (∃ snap, (pollLoop tid total k st).1 = PollOutcome.resolved snap
          ∧ snap.status = some "COMPLETED")
      ∨ (pollLoop tid total k st).1 = PollOutcome.timeout tid total := by
  intro k
  induction k with
  | zero => intro st; right; rfl
  | succ m ih =>
    intro st
    rcases hq : simulateGetTaskStatus st tid with ⟨r, st1⟩
    cases r with
    | ok tr =>
      cases tr with
      | ok snap =>
        by_cases hs : snap.status = some "COMPLETED"
        · left
          refine ⟨snap, ?_, hs⟩
          rw [pollLoop_step_complete tid total m st st1 snap hq hs]
        · rw [pollLoop_step_notComplete tid total m st st1 snap hq hs]
          exact ih st1
      | notFound m2 =>
        rw [pollLoop_step_notFound tid total m st st1 m2 hq]
        exact ih st1
    | error e =>
      rw [pollLoop_step_error tid total m st st1 e hq]
      exact ih st1

/-- C1: for every task in the Task Ledger, each `getTaskStatus` call advances
the task by exactly one stage along QUEUED, PROCESSING, COMPLETED when it is
not terminal, COMPLETED is absorbing, and in every reachable state a ledger
entry only ever holds one of those three stages, so the status never
regresses and never skips a stage. -/
theorem c1_task_status_state_machine :
    (∀ (st : SPState) (tid s : String), Reachable st →
        taskStatusOf st tid = some s →
        s = "QUEUED" ∨ s = "PROCESSING" ∨ s = "COMPLETED")
    ∧ (∀ (st : SPState) (tid : String),
        taskStatusOf st tid = some "QUEUED" →
        taskStatusOf (simulateGetTaskStatus st tid).2 tid = some "PROCESSING")
    ∧ (∀ (st : SPState) (tid : String),
        taskStatusOf st tid = some "PROCESSING" →
        taskStatusOf (simulateGetTaskStatus st tid).2 tid = some "COMPLETED")
    ∧ (∀ (st : SPState) (tid : String),
        taskStatusOf st tid = some "COMPLETED" →
        taskStatusOf (simulateGetTaskStatus st tid).2 tid = some "COMPLETED") := by
  refine ⟨?_, ?_, ?_, ?_⟩
  · intro st tid s hre hs
    exact reachable_taskStatusesValid st hre tid s hs
  · intro st tid hs
    have h2 := taskStatusOf_step st tid "QUEUED" hs
    rw [show advanceStatus "QUEUED" = "PROCESSING" from rfl] at h2
    exact h2
  · intro st tid hs
    have h2 := taskStatusOf_step st tid "PROCESSING" hs
    rw [show advanceStatus "PROCESSING" = "COMPLETED" from rfl] at h2
    exact h2
  · intro st tid hs
    have h2 := taskStatusOf_step st tid "COMPLETED" hs
    rw [show advanceStatus "COMPLETED" = "COMPLETED" from rfl] at h2
    exact h2

/-- Payload used by the concrete scenarios (spec example scenario 1). -/
def w1payload : AccountData :=
  { sourceId := "s1",
    attributes := [("mail", "a@x.com"), ("displayName", "A B")] }

/-- State after one `createAccount` on the seeded store. -/
def w1state : SPState := (simulateCreateAccount initState w1payload 0).2

theorem c1_task_status_state_machine_witness :
    taskStatusOf w1state "account-creation-task-0" = some "QUEUED"
    ∧ taskStatusOf (simulateGetTaskStatus w1state "account-creation-task-0").2
        "account-creation-task-0" = some "PROCESSING"
    ∧ ("QUEUED" = "QUEUED" ∨ "QUEUED" = "PROCESSING"
        ∨ "QUEUED" = "COMPLETED") :=
  ⟨by decide,
   c1_task_status_state_machine.2.1 w1state "account-creation-task-0"
     (by decide),
   c1_task_status_state_machine.1 w1state "account-creation-task-0" "QUEUED"
     (Reachable.create initState w1payload 0 Reachable.init) (by decide)⟩

/-- State after disabling the seeded manager account: the ledger holds an
account-disable task (which carries `accountId` but no `accountData`). -/
def c2state : SPState := (simulateDisableAccount initState "sim-acc-mgr-0" 0).2

/-- C2 (code bug): querying the status of an account-disable task throws a
TypeError while computing the result object, because the task record carries
a truthy `accountId` but no `accountData`, so `taskDetails.accountData.sourceId`
reads a property of `undefined`.  The status advance has already been stored
when the throw happens. -/
theorem c2_disable_task_query_throws :
    (simulateGetTaskStatus c2state "disable-account-task-0").1
      = Except.error (JsErr.typeError
          "cannot read sourceId of undefined accountData")
    ∧ taskStatusOf c2state "disable-account-task-0" = some "QUEUED"
    ∧ taskStatusOf (simulateGetTaskStatus c2state "disable-account-task-0").2
        "disable-account-task-0" = some "PROCESSING" := by
  exact ⟨by decide, by decide, by decide⟩

/-- C8: the poller resolves with the snapshot as soon as a query reports
COMPLETED, otherwise exhausts its budget and fails with a timeout carrying
the task id and the attempt count; a 404 response and a thrown query error
are both a missed attempt, and polling continues with the remaining budget. -/
theorem c8_poller (st : SPState) (tid : String) :
    (∀ n : Nat,
        (∃ snap, (pollTaskStatus st tid n).1 = PollOutcome.resolved snap
            ∧ snap.status = some "COMPLETED")
        ∨ (pollTaskStatus st tid n).1 = PollOutcome.timeout tid n)
    ∧ (∀ (n : Nat) (snap : TaskSnapshot) (st1 : SPState),
        simulateGetTaskStatus st tid
            = (Except.ok (TaskResponse.ok snap), st1) →
        snap.status = some "COMPLETED" →
        pollTaskStatus st tid (n + 1) = (PollOutcome.resolved snap, st1))
    ∧ (∀ (n : Nat) (e : JsErr) (st1 : SPState),
        simulateGetTaskStatus st tid = (Except.error e, st1) →
        pollTaskStatus st tid (n + 1) = pollLoop tid (n + 1) n st1)
    ∧ (∀ (n : Nat) (msg : String) (st1 : SPState),
        simulateGetTaskStatus st tid
            = (Except.ok (TaskResponse.notFound msg), st1) →
        pollTaskStatus st tid (n + 1) = pollLoop tid (n + 1) n st1) := by
  refine ⟨?_, ?_, ?_, ?_⟩
  · intro n
    exact pollLoop_cases tid n n st
  · intro n snap st1 h hs
    exact pollLoop_step_complete tid (n + 1) n st st1 snap h hs
  · intro n e st1 h
    exact pollLoop_step_error tid (n + 1) n st st1 e h
  · intro n msg st1 h
    exact pollLoop_step_notFound tid (n + 1) n st st1 msg h

/-- State whose account-creation task is already PROCESSING, so the next
status query reports COMPLETED. -/
def w8state : SPState :=
  (simulateGetTaskStatus w1state "account-creation-task-0").2

/-- The snapshot returned by the query that completes the creation task. -/
def w8snap : TaskSnapshot :=
  { id := "account-creation-task-0", type := "GENERIC_TASK", name := none,
    status := some "COMPLETED",
    result := TaskResult.acct "simulated-accountId-3"
      (some "simulated-identityId-2") "s1" }

/-- Post-state of the completing query. -/
def w8state1 : SPState :=
  (simulateGetTaskStatus w8state "account-creation-task-0").2

theorem c8_poller_witness :
    pollTaskStatus w8state "account-creation-task-0" 5
      = (PollOutcome.resolved w8snap, w8state1) :=
  (c8_poller w8state "account-creation-task-0").2.1 4 w8snap w8state1
    (by decide) (by decide)

/-- C3 counterexample: offboarding an unknown identity id on the seeded store
does not fail with NotFound; the 404 from `setLifecycleState` is never
checked, the route polls the undefined task id for five attempts and fails
with a 500 `ApiError` (status code 500, not 404).  State is unchanged. -/
theorem c3_offboard_unknown_counterexample :
    (offboardContractor initState (some "ghost-identity") none false 0 0).1
      = Except.error (WorkflowError.apiError 500
          "Task undefined did not complete after 5 attempts.")
    ∧ (offboardContractor initState (some "ghost-identity") none false 0 0).2
        = initState
    ∧ ¬ (500 = 404) :=
  ⟨by decide, by decide, by decide⟩

/-- C3 amended: offboarding an identity id that does not exist in the
Directory Store fails — but with a 500 task-poll `ApiError` rather than a
NotFound error, because the route never checks the 404 response of
`setLifecycleState` and instead polls `data.id` (which is `undefined`) —
and before that failure no task is created and no Directory Store or Task
Ledger state is changed. -/
theorem c3_offboard_unknown_amended (st : SPState) (s : String)
    (hs : ¬ s = "")
    (hfind : findIdentityById st s = none)
    (hu1 : storeGet st.acctStore "undefined" = none)
    (hu2 : storeGet st.identStore "undefined" = none)
    (now nowLcs : Nat) :
    (offboardContractor st (some s) none false now nowLcs).1
      = Except.error (WorkflowError.apiError 500
          "Task undefined did not complete after 5 attempts.")
    ∧ (offboardContractor st (some s) none false now nowLcs).2 = st := by
  have hT : jsTruthy (some s) = true := by simp [jsTruthy, hs]
  have hlcs : simulateSetLifecycleState st s "terminated" nowLcs
      = (OpResponse.notFound
           ("Identity " ++ s ++
            " not found for lifecycle state change (simulated)."), st) :=
    setLifecycleState_none st s "terminated" nowLcs hfind
  have hpoll := pollLoop_notFound "undefined" 5 st hu1 hu2 5
  unfold offboardContractor
  rw [if_pos hT]
  simp only [undefStr, hlcs, respId, pollTaskStatus]
  rw [hpoll]
  exact ⟨rfl, rfl⟩

theorem c3_offboard_unknown_amended_witness :
    (offboardContractor initState (some "phantom-id") none true 3 4).1
      = Except.error (WorkflowError.apiError 500
          "Task undefined did not complete after 5 attempts.")
    ∧ (offboardContractor initState (some "phantom-id") none true 3 4).2
        = initState :=
  c3_offboard_unknown_amended initState "phantom-id" (by decide) (by decide)
    (by decide) (by decide) 3 4

theorem setLifecycleState_fst_ref (st : SPState) (i newState : String)
    (now : Nat) (n : Nat) (ii : Identity)
    (h : findIdentityById st i = some (IdentEntry.ref n))
    (hg : st.heap[n]? = some ii) :
    (simulateSetLifecycleState st i newState now).1
      = OpResponse.accepted ("set-lcs-task-" ++ Nat.repr now)
          "IDENTITY_LIFECYCLE_UPDATE" "QUEUED"
          ("Lifecycle state change for " ++ ii.name ++ " to " ++ newState) := by
  unfold simulateSetLifecycleState
  simp [h, hg]

/-- C7: `setLifecycleState` signals NotFound for an unknown identity and
creates no task (the state is fully unchanged); otherwise it sets the
identity lifecycle state synchronously, disables every owned account
exactly when the new state is `terminated`, and enqueues a `QUEUED`
lifecycle task. -/
theorem c7_set_lifecycle_state (st : SPState) (i newState : String)
    (now : Nat) :
    (findIdentityById st i = none →
      simulateSetLifecycleState st i newState now
        = (OpResponse.notFound
             ("Identity " ++ i ++
              " not found for lifecycle state change (simulated)."), st))
    ∧ (∀ (n : Nat) (ii : Identity),
        findIdentityById st i = some (IdentEntry.ref n) →
        st.heap[n]? = some ii →
        (simulateSetLifecycleState st i newState now).2.heap[n]?
            = some { ii with
                       lifecycleState := newState
                       accounts :=
                         if newState = "terminated" then
                           ii.accounts.map
                             (fun a => { a with status := "disabled" })
                         else ii.accounts }
          ∧ storeGet (simulateSetLifecycleState st i newState now).2.identStore
              ("set-lcs-task-" ++ Nat.repr now)
              = some (lcsTaskRec i newState ii.name)
          ∧ (simulateSetLifecycleState st i newState now).1
              = OpResponse.accepted ("set-lcs-task-" ++ Nat.repr now)
                  "IDENTITY_LIFECYCLE_UPDATE" "QUEUED"
                  ("Lifecycle state change for " ++ ii.name ++ " to "
                    ++ newState)) := by
  constructor
  · intro h
    exact setLifecycleState_none st i newState now h
  · intro n ii h hg
    have hb : n < st.heap.length := by
      rcases List.getElem?_eq_some_iff.mp hg with ⟨hb, _⟩
      exact hb
    refine ⟨?_, ?_, setLifecycleState_fst_ref st i newState now n ii h hg⟩
    · rw [setLifecycleState_snd_ref st i newState now n ii h hg]
      exact List.getElem?_set_self hb
    · rw [setLifecycleState_snd_ref st i newState now n ii h hg]
      exact storeGet_storeSet_self _ _ _

theorem c7_set_lifecycle_state_witness :
    (simulateSetLifecycleState initState (mkIdentityId 1) "terminated"
        9).2.heap[1]?
        = some { user1Identity with
                   lifecycleState := "terminated"
                   accounts :=
                     if "terminated" = "terminated" then
                       user1Identity.accounts.map
                         (fun a => { a with status := "disabled" })
                     else user1Identity.accounts }
      ∧ storeGet (simulateSetLifecycleState initState (mkIdentityId 1)
            "terminated" 9).2.identStore ("set-lcs-task-" ++ Nat.repr 9)
          = some (lcsTaskRec (mkIdentityId 1) "terminated" user1Identity.name)
      ∧ (simulateSetLifecycleState initState (mkIdentityId 1) "terminated"
            9).1
          = OpResponse.accepted ("set-lcs-task-" ++ Nat.repr 9)
              "IDENTITY_LIFECYCLE_UPDATE" "QUEUED"
              ("Lifecycle state change for " ++ user1Identity.name
                ++ " to " ++ "terminated") :=
  (c7_set_lifecycle_state initState (mkIdentityId 1) "terminated" 9).2 1
    user1Identity (by decide) (by decide)

theorem perIdentity_nodup (st : SPState) (h : (heapAccountIds st).Nodup)
    (n : Nat) (i : Identity) (hi : st.heap[n]? = some i) :
    (i.accounts.map (fun a => a.id)).Nodup := by
  unfold heapAccountIds heapAccountIdLists at h
  rw [List.nodup_flatten] at h
  exact h.1 _ (List.mem_map_of_mem _ (List.getElem?_mem hi))

theorem disableFirst_mem (l : List Account) (aid : String) (a : Account)
    (hnd : (l.map (fun x => x.id)).Nodup)
    (ha : a ∈ disableFirst l aid) (hid : a.id = aid) :
    a.status = "disabled" := by
  induction l with
  | nil => simp [disableFirst] at ha
  | cons b rest ih =>
    rw [List.map_cons, List.nodup_cons] at hnd
    by_cases hb : b.id = aid
    · rw [disableFirst, if_pos hb] at ha
      rcases List.mem_cons.mp ha with rfl | ha2
      · rfl
      · exact absurd (by rw [hb, ← hid]; exact List.mem_map_of_mem _ ha2)
          hnd.1
    · rw [disableFirst, if_neg hb] at ha
      rcases List.mem_cons.mp ha with rfl | ha2
      · exact absurd hid hb
      · exact ih hnd.2 ha2

theorem disableAccount_fst_found (st : SPState) (aid : String) (now : Nat)
    (key : String) (n : Nat) (h : disableScan st aid = some (key, n)) :
    (simulateDisableAccount st aid now).1
      = OpResponse.accepted ("disable-account-task-" ++ Nat.repr now)
          "ACCOUNT_ACTIVITY" "QUEUED" ("Disable account " ++ aid) := by
  unfold simulateDisableAccount
  rw [h]

/-- C6: a successful `disableAccount` leaves every stored copy of the
account (the account object and the owning identity's embedded copy,
reachable through every aliasing store key) with status `disabled`, and
enqueues a `QUEUED` disable task; in every reachable state no two stored
accounts with the same id can disagree on status; an unknown account id
yields NotFound and a completely unchanged state. -/
theorem c6_disable_account (st : SPState) (aid : String) (now : Nat)
    (hre : Reachable st) :
    (∀ (key : String) (n : Nat), disableScan st aid = some (key, n) →
        (∀ (k : Nat) (i : Identity) (a : Account),
            (simulateDisableAccount st aid now).2.heap[k]? = some i →
            a ∈ i.accounts → a.id = aid → a.status = "disabled")
        ∧ storeGet (simulateDisableAccount st aid now).2.acctStore
            ("disable-account-task-" ++ Nat.repr now)
            = some { status := "QUEUED", accountId := aid,
                     accountData := none,
                     type := some "ACCOUNT_DISABLE_TASK",
                     name := some ("Disable account " ++ aid) }
        ∧ (simulateDisableAccount st aid now).1
            = OpResponse.accepted ("disable-account-task-" ++ Nat.repr now)
                "ACCOUNT_ACTIVITY" "QUEUED" ("Disable account " ++ aid))
    ∧ (∀ (k1 k2 : Nat) (i1 i2 : Identity) (a1 a2 : Account),
        st.heap[k1]? = some i1 → st.heap[k2]? = some i2 →
        a1 ∈ i1.accounts → a2 ∈ i2.accounts → a1.id = a2.id →
        a1.status = a2.status)
    ∧ (disableScan st aid = none →
        simulateDisableAccount st aid now
          = (OpResponse.notFound
               ("Account " ++ aid ++ " not found for disabling (simulated).")
             , st)) := by
  have hids := reachable_accountIdsOK st hre
  refine ⟨?_, ?_, ?_⟩
  · intro key n hscan
    obtain ⟨i, hi, hany⟩ := disableScan_spec st aid key n hscan
    have hsnd := disableAccount_snd_found st aid now key n i hscan hi
    refine ⟨?_, ?_, disableAccount_fst_found st aid now key n hscan⟩
    · intro k i2 a hk ha hid2
      rw [hsnd] at hk
      have hk2 : (st.heap.set n
          { i with accounts := disableFirst i.accounts aid })[k]? = some i2 :=
        hk
      by_cases hkn : k = n
      · subst hkn
        have hb : k < st.heap.length := by
          rcases List.getElem?_eq_some_iff.mp hi with ⟨hb, _⟩
          exact hb
        rw [List.getElem?_set_self (by simpa using hb)] at hk2
        have hi2 : i2 = { i with accounts := disableFirst i.accounts aid } :=
          by simpa using hk2.symm
        subst hi2
        exact disableFirst_mem i.accounts aid a
          (perIdentity_nodup st hids.1 k i hi) ha hid2
      · rw [List.getElem?_set_ne (fun hh => hkn hh.symm)] at hk2
        obtain ⟨a0, ha0, hida0⟩ := List.any_eq_true.mp hany
        exfalso
        exact hkn
          (accountsUnique st hids.1 k n i2 i a a0 hk2 hi ha ha0
            (by rw [hid2]; exact (of_decide_eq_true hida0).symm)).1
    · rw [hsnd]
      exact storeGet_storeSet_self _ _ _
  · intro k1 k2 i1 i2 a1 a2 h1 h2 m1 m2 he
    obtain ⟨-, heq⟩ := accountsUnique st hids.1 k1 k2 i1 i2 a1 a2 h1 h2 m1 m2 he
    rw [heq]
  · intro h
    exact disableAccount_none st aid now h

theorem c6_disable_account_witness :
    storeGet (simulateDisableAccount initState "sim-acc-mgr-0" 0).2.acctStore
        ("disable-account-task-" ++ Nat.repr 0)
        = some { status := "QUEUED", accountId := "sim-acc-mgr-0",
                 accountData := none, type := some "ACCOUNT_DISABLE_TASK",
                 name := some ("Disable account " ++ "sim-acc-mgr-0") }
      ∧ (simulateDisableAccount initState "sim-acc-mgr-0" 0).1
        = OpResponse.accepted ("disable-account-task-" ++ Nat.repr 0)
            "ACCOUNT_ACTIVITY" "QUEUED"
            ("Disable account " ++ "sim-acc-mgr-0") :=
  ⟨((c6_disable_account initState "sim-acc-mgr-0" 0 Reachable.init).1
      (mkIdentityId 0) 0 (by decide)).2.1,
   ((c6_disable_account initState "sim-acc-mgr-0" 0 Reachable.init).1
      (mkIdentityId 0) 0 (by decide)).2.2⟩

/-- State after two `createAccount` calls that reuse the same email. -/
def dupState2 : SPState := (simulateCreateAccount w1state w1payload 1).2

/-- C10 counterexample: two `createAccount` calls with the same `mail`
attribute produce a reachable state holding two distinct identities that
share the email, so email uniqueness is not guaranteed by construction. -/
theorem c10_shared_email_counterexample :
    Reachable dupState2
    ∧ (dupState2.heap.map (fun j => j.id))[2]? = some "simulated-identityId-2"
    ∧ (dupState2.heap.map (fun j => j.id))[3]? = some "simulated-identityId-3"
    ∧ (dupState2.heap.map (fun j => j.email))[2]? = some (some "a@x.com")
    ∧ (dupState2.heap.map (fun j => j.email))[3]? = some (some "a@x.com")
    ∧ ¬ ("simulated-identityId-2" = "simulated-identityId-3") :=
  ⟨Reachable.create w1state w1payload 1
     (Reachable.create initState w1payload 0 Reachable.init),
   by decide, by decide, by decide, by decide, by decide⟩

/-- C10 amended: in every reachable state no two stored accounts share an id
(an account id determines a unique heap occurrence), so the linear-scan
search by account id is tie-free; email uniqueness is not enforced — two
creations with the same mail yield two identities sharing the email, and the
email scan then returns the last-inserted match. -/
theorem c10_account_ids_unique_amended (st : SPState) (hre : Reachable st) :
    ∀ (k1 k2 : Nat) (i1 i2 : Identity) (a1 a2 : Account),
      st.heap[k1]? = some i1 → st.heap[k2]? = some i2 →
      a1 ∈ i1.accounts → a2 ∈ i2.accounts → a1.id = a2.id →
      k1 = k2 ∧ a1 = a2 :=
  accountsUnique st (reachable_accountIdsOK st hre).1

theorem c10_account_ids_unique_amended_witness :
    (0 : Nat) = 0
    ∧ ({ id := "sim-acc-mgr-0", nativeIdentity := "janemgr", sourceId := "AD",
         sourceName := "Active Directory", status := "enabled" } : Account)
        = { id := "sim-acc-mgr-0", nativeIdentity := "janemgr",
            sourceId := "AD", sourceName := "Active Directory",
            status := "enabled" } :=
  c10_account_ids_unique_amended initState Reachable.init 0 0
    managerIdentity managerIdentity
    { id := "sim-acc-mgr-0", nativeIdentity := "janemgr", sourceId := "AD",
      sourceName := "Active Directory", status := "enabled" }
    { id := "sim-acc-mgr-0", nativeIdentity := "janemgr", sourceId := "AD",
      sourceName := "Active Directory", status := "enabled" }
    (by decide) (by decide) (by decide) (by decide) (by decide)

theorem getTaskStatus_acct_ok (st : SPState) (tid : String) (t : AcctTask)
    (d : AccountData) (hacct : storeGet st.acctStore tid = some t)
    (hid : ¬ t.accountId = "") (hd : t.accountData = some d) :
    simulateGetTaskStatus st tid
      = (Except.ok (TaskResponse.ok
          { id := tid, type := jsOrStr t.type "GENERIC_TASK", name := t.name,
            status := some (advanceStatus t.status),
            result := TaskResult.acct t.accountId
              ((findIdentityById
                  { st with
                      acctStore := storeSet st.acctStore tid
                        { t with status := advanceStatus t.status } }
                  t.accountId).bind (entryIdProp st.heap))
              d.sourceId }),
         { st with
             acctStore := storeSet st.acctStore tid
               { t with status := advanceStatus t.status } }) := by
  unfold simulateGetTaskStatus
  rw [hacct]
  simp only []
  rw [if_neg hid, hd]

/-- C4 counterexample: the very first status query on a freshly created
account-creation task (still QUEUED, advanced to PROCESSING during the call)
already returns a snapshot with the fully populated account result, so a
snapshot taken before COMPLETED does carry a result. -/
theorem c4_result_before_completed_counterexample :
    (simulateGetTaskStatus w1state "account-creation-task-0").1
      = Except.ok (TaskResponse.ok
          { id := "account-creation-task-0", type := "GENERIC_TASK",
            name := none, status := some "PROCESSING",
            result := TaskResult.acct "simulated-accountId-3"
              (some "simulated-identityId-2") "s1" })
    ∧ taskStatusOf w1state "account-creation-task-0" = some "QUEUED" :=
  ⟨by decide, by decide⟩

/-- C4 amended: `getTaskStatus` computes and attaches the result object on
every successful snapshot regardless of the staged status; a query on a
still-QUEUED account-creation task returns a PROCESSING snapshot whose
result already carries the full account payload. -/
theorem c4_result_always_attached (st : SPState) (tid : String)
    (t : AcctTask) (d : AccountData)
    (hacct : storeGet st.acctStore tid = some t)
    (hq : t.status = "QUEUED")
    (hid : ¬ t.accountId = "")
    (hd : t.accountData = some d) :
    (simulateGetTaskStatus st tid).1
      = Except.ok (TaskResponse.ok
          { id := tid, type := jsOrStr t.type "GENERIC_TASK", name := t.name,
            status := some "PROCESSING",
            result := TaskResult.acct t.accountId
              ((findIdentityById (simulateGetTaskStatus st tid).2
                  t.accountId).bind
                (entryIdProp st.heap))
              d.sourceId }) := by
  rw [getTaskStatus_acct_ok st tid t d hacct hid hd]
  rw [hq]
  rfl

theorem c4_result_always_attached_witness :
    (simulateGetTaskStatus w1state "account-creation-task-0").1
      = Except.ok (TaskResponse.ok
          { id := "account-creation-task-0",
            type := jsOrStr none "GENERIC_TASK", name := none,
            status := some "PROCESSING",
            result := TaskResult.acct "simulated-accountId-3"
              ((findIdentityById (simulateGetTaskStatus w1state
                  "account-creation-task-0").2 "simulated-accountId-3").bind
                (entryIdProp w1state.heap))
              "s1" }) :=
  c4_result_always_attached w1state "account-creation-task-0"
    { status := "QUEUED", accountId := "simulated-accountId-3",
      accountData := some w1payload, type := none, name := none }
    w1payload (by decide) rfl (by decide) rfl

theorem mkAccountId_ne_mkIdentityId (a b : Nat) :
    ¬ mkAccountId a = mkIdentityId b := by
  intro h
  have hd := congrArg String.data h
  unfold mkAccountId mkIdentityId at hd
  rw [string_data_append, string_data_append] at hd
  have hLa : (("simulated-accountId-" : String).data
      ++ (Nat.repr a).data)[10]? = some 'a' := by
    rw [List.getElem?_append_left (by decide)]
    decide
  have hLi : (("simulated-identityId-" : String).data
      ++ (Nat.repr b).data)[10]? = some 'i' := by
    rw [List.getElem?_append_left (by decide)]
    decide
  rw [hd, hLi] at hLa
  simp at hLa

theorem storeGet_append_none {α : Type} (l1 l2 : List (String × α))
    (k : String) (h : storeGet l1 k = none) :
    storeGet (l1 ++ l2) k = storeGet l2 k := by
  induction l1 with
  | nil => rfl
  | cons p rest ih =>
    rw [storeGet_cons] at h
    by_cases hp : p.1 = k
    · rw [if_pos hp] at h
      exact absurd h (by simp)
    · rw [if_neg hp] at h
      rw [List.cons_append, storeGet_cons, if_neg hp]
      exact ih h

theorem createAccount_identStore_shape (st : SPState) (d : AccountData)
    (now : Nat)
    (hfreshA : storeGet st.identStore (mkAccountId st.accountCounter) = none)
    (hfreshI : storeGet st.identStore (mkIdentityId st.identityCounter)
        = none) :
    (simulateCreateAccount st d now).2.identStore
      = (st.identStore
          ++ [(mkAccountId st.accountCounter,
               IdentEntry.ref st.heap.length)])
          ++ [(mkIdentityId st.identityCounter,
               IdentEntry.ref st.heap.length)] := by
  rw [createAccount_snd_identStore]
  rw [storeSet_absent st.identStore _ _ hfreshA]
  rw [storeSet_absent]
  rw [storeGet_append_none _ _ _ hfreshI]
  rw [storeGet_cons]
  rw [if_neg (mkAccountId_ne_mkIdentityId st.accountCounter
    st.identityCounter)]
  rfl

theorem createAccount_identStore_get_acct (st : SPState) (d : AccountData)
    (now : Nat) :
    storeGet (simulateCreateAccount st d now).2.identStore
        (mkAccountId st.accountCounter)
      = some (IdentEntry.ref st.heap.length) := by
  rw [createAccount_snd_identStore]
  rw [storeGet_storeSet_ne _ _ _ _
    (mkAccountId_ne_mkIdentityId st.accountCounter st.identityCounter)]
  exact storeGet_storeSet_self _ _ _

theorem createAccount_identStore_get_ident (st : SPState) (d : AccountData)
    (now : Nat) :
    storeGet (simulateCreateAccount st d now).2.identStore
        (mkIdentityId st.identityCounter)
      = some (IdentEntry.ref st.heap.length) := by
  rw [createAccount_snd_identStore]
  exact storeGet_storeSet_self _ _ _

theorem createAccount_heap_get (st : SPState) (d : AccountData) (now : Nat) :
    (simulateCreateAccount st d now).2.heap[st.heap.length]?
      = some (createdIdentity st d) := by
  rw [createAccount_snd_heap]
  exact List.getElem?_concat_length _ _

theorem createdIdentity_id (st : SPState) (d : AccountData) :
    (createdIdentity st d).id = mkIdentityId st.identityCounter := rfl

theorem createdIdentity_email (st : SPState) (d : AccountData) :
    (createdIdentity st d).email = attrGet d.attributes "mail" := rfl

theorem entryIdProp_create (st : SPState) (d : AccountData) (now : Nat) :
    entryIdProp (simulateCreateAccount st d now).2.heap
        (IdentEntry.ref st.heap.length)
      = some (mkIdentityId st.identityCounter) := by
  unfold entryIdProp
  simp only [List.get?_eq_getElem?]
  rw [createAccount_heap_get]
  rfl

theorem findIdentityById_create_acct (st : SPState) (d : AccountData)
    (now : Nat) :
    findIdentityById (simulateCreateAccount st d now).2
        (mkAccountId st.accountCounter)
      = some (IdentEntry.ref st.heap.length) := by
  unfold findIdentityById
  rw [createAccount_identStore_get_acct]

theorem findIdentityById_create_ident (st : SPState) (d : AccountData)
    (now : Nat) :
    findIdentityById (simulateCreateAccount st d now).2
        (mkIdentityId st.identityCounter)
      = some (IdentEntry.ref st.heap.length) := by
  unfold findIdentityById
  rw [createAccount_identStore_get_ident]

theorem findIdentityById_set_acctStore (st : SPState)
    (a : List (String × AcctTask)) (i : String) :
    findIdentityById { st with acctStore := a } i = findIdentityById st i :=
  rfl

/-- The state left behind by `pollTaskStatus` run to completion on a freshly
created account-creation task: the task record advanced twice (the two
status queries of the poll). -/
def createPolledState (st : SPState) (d : AccountData) (now : Nat) : SPState :=
  let tid := "account-creation-task-" ++ Nat.repr now
  let S := (simulateCreateAccount st d now).2
  let t1 : AcctTask :=
    { status := "PROCESSING", accountId := mkAccountId st.accountCounter,
      accountData := some d, type := none, name := none }
  let t2 : AcctTask :=
    { status := "COMPLETED", accountId := mkAccountId st.accountCounter,
      accountData := some d, type := none, name := none }
  { S with acctStore := storeSet (storeSet S.acctStore tid t1) tid t2 }

theorem createAccount_poll (st : SPState) (d : AccountData) (now : Nat) :
    pollTaskStatus (simulateCreateAccount st d now).2
        ("account-creation-task-" ++ Nat.repr now) 5
      = (PollOutcome.resolved
          { id := "account-creation-task-" ++ Nat.repr now,
            type := "GENERIC_TASK", name := none,
            status := some "COMPLETED",
            result := TaskResult.acct (mkAccountId st.accountCounter)
              (some (mkIdentityId st.identityCounter)) d.sourceId },
         createPolledState st d now) := by
  have hacct1 : storeGet (simulateCreateAccount st d now).2.acctStore
      ("account-creation-task-" ++ Nat.repr now)
      = some { status := "QUEUED", accountId := mkAccountId st.accountCounter,
               accountData := some d, type := none, name := none } := by
    rw [createAccount_snd_acctStore]
    exact storeGet_storeSet_self _ _ _
  have h1 := getTaskStatus_acct_ok (simulateCreateAccount st d now).2
      ("account-creation-task-" ++ Nat.repr now)
      { status := "QUEUED", accountId := mkAccountId st.accountCounter,
        accountData := some d, type := none, name := none } d hacct1
      (mkAccountId_ne_empty st.accountCounter) rfl
  have hadv1 : advanceStatus "QUEUED" = "PROCESSING" := by decide
  have hadv2 : advanceStatus "PROCESSING" = "COMPLETED" := by decide
  simp only [] at h1
  simp only [hadv1] at h1
  rw [findIdentityById_set_acctStore, findIdentityById_create_acct,
    Option.some_bind, entryIdProp_create] at h1
  have hacct2 : storeGet (storeSet (simulateCreateAccount st d now).2.acctStore
        ("account-creation-task-" ++ Nat.repr now)
        { status := "PROCESSING", accountId := mkAccountId st.accountCounter,
          accountData := some d, type := none, name := none })
      ("account-creation-task-" ++ Nat.repr now)
      = some { status := "PROCESSING",
               accountId := mkAccountId st.accountCounter,
               accountData := some d, type := none, name := none } :=
    storeGet_storeSet_self _ _ _
  have h2 := getTaskStatus_acct_ok
      { (simulateCreateAccount st d now).2 with
          acctStore := storeSet (simulateCreateAccount st d now).2.acctStore
            ("account-creation-task-" ++ Nat.repr now)
            { status := "PROCESSING",
              accountId := mkAccountId st.accountCounter,
              accountData := some d, type := none, name := none } }
      ("account-creation-task-" ++ Nat.repr now)
      { status := "PROCESSING", accountId := mkAccountId st.accountCounter,
        accountData := some d, type := none, name := none } d hacct2
      (mkAccountId_ne_empty st.accountCounter) rfl
  simp only [] at h2
  simp only [hadv2] at h2
  rw [findIdentityById_set_acctStore, findIdentityById_create_acct,
    Option.some_bind, entryIdProp_create] at h2
  have e1 := pollLoop_step_notComplete
    ("account-creation-task-" ++ Nat.repr now) 5 4 _ _ _ h1
    (by intro hq; simp only [] at hq; exact absurd hq (by decide))
  have e2 := pollLoop_step_complete
    ("account-creation-task-" ++ Nat.repr now) 5 3 _ _ _ h2 rfl
  exact e1.trans e2

theorem grantLoop_ok (grant : AccessRequestPayload → Except String String)
    (identityId : String) :
    ∀ items : List AccessReq, grantLoop grant identityId items
      = Except.ok () := by
  intro items
  induction items with
  | nil => rfl
  | cons a rest ih =>
    unfold grantLoop
    simp only []
    split
    · exact ih
    · exact ih

/-- The `accountData` payload that the onboarding route passes to
`simulateCreateAccount`: fixed source id, caller attributes overlaid with the
normalised name/mail/manager fields. -/
def onboardPayload (inp : OnboardInput) : AccountData :=
  { sourceId := "mockContractorSourceId",
    attributes :=
      attrSet (attrSet (attrSet (attrSet (attrSet (inp.attributes.getD [])
        "mail" (undefStr inp.email))
        "displayName" (undefStr inp.firstName ++ " " ++ undefStr inp.lastName))
        "givenName" (undefStr inp.firstName))
        "sn" (undefStr inp.lastName))
        "manager" (undefStr inp.managerSailPointId) }

theorem onboard_ok (st : SPState) (inp : OnboardInput)
    (g : AccessRequestPayload → Except String String) (now nowCreate : Nat)
    (h1 : jsTruthy inp.firstName = true) (h2 : jsTruthy inp.lastName = true)
    (h3 : jsTruthy inp.email = true)
    (h4 : jsTruthy inp.managerSailPointId = true)
    (h5 : inp.attributes.isSome = true) :
    onboardContractor st inp g now nowCreate
      = (Except.ok
          { mcpTrackingId := "mcp-onboarding-" ++ Nat.repr now,
            sailpointAccountId := mkAccountId st.accountCounter,
            sailpointIdentityId := mkIdentityId st.identityCounter },
         createPolledState st (onboardPayload inp) nowCreate) := by
  have hcond : (jsTruthy inp.firstName = true) ∧ (jsTruthy inp.lastName = true)
      ∧ (jsTruthy inp.email = true) ∧ (jsTruthy inp.managerSailPointId = true)
      ∧ (inp.attributes.isSome = true) := ⟨h1, h2, h3, h4, h5⟩
  have hresp : ∀ d : AccountData,
      undefStr (respId (simulateCreateAccount st d nowCreate).1)
        = "account-creation-task-" ++ Nat.repr nowCreate := fun d => rfl
  have hu : ∀ s : String, undefStr (some s) = s := fun s => rfl
  have hjsA : jsTruthy (some (mkAccountId st.accountCounter)) = true := by
    have hne : ¬ mkAccountId st.accountCounter = "" :=
      mkAccountId_ne_empty st.accountCounter
    simp [jsTruthy, hne]
  have hjsI : jsTruthy (some (mkIdentityId st.identityCounter)) = true := by
    have hne : ¬ mkIdentityId st.identityCounter = "" :=
      mkIdentityId_ne_empty st.identityCounter
    simp [jsTruthy, hne]
  unfold onboardContractor
  simp only []
  rw [if_pos hcond]
  simp only [hresp, createAccount_poll, hjsA, hjsI, hu, grantLoop_ok]
  rfl

/-- C5: an onboarding run (valid request) always reaches the 202 success
response carrying the account id and identity id resolved from the completed
creation task; the outcome is identical for any two access-grant submitters
(so any number of individual grant failures leaves the result unchanged), and
the grant loop itself absorbs every individual failure and returns normally. -/
theorem c5_onboard_best_effort (st : SPState) (inp : OnboardInput)
    (g1 g2 : AccessRequestPayload → Except String String) (now nowCreate : Nat)
    (h1 : jsTruthy inp.firstName = true) (h2 : jsTruthy inp.lastName = true)
    (h3 : jsTruthy inp.email = true)
    (h4 : jsTruthy inp.managerSailPointId = true)
    (h5 : inp.attributes.isSome = true) :
    (onboardContractor st inp g1 now nowCreate).1
      = Except.ok
          { mcpTrackingId := "mcp-onboarding-" ++ Nat.repr now,
            sailpointAccountId := mkAccountId st.accountCounter,
            sailpointIdentityId := mkIdentityId st.identityCounter }
    ∧ onboardContractor st inp g1 now nowCreate
        = onboardContractor st inp g2 now nowCreate
    ∧ (∀ items : List AccessReq, ∀ iid : String,
        grantLoop g1 iid items = Except.ok ()) := by
  refine ⟨?_, ?_, ?_⟩
  · rw [onboard_ok st inp g1 now nowCreate h1 h2 h3 h4 h5]
  · rw [onboard_ok st inp g1 now nowCreate h1 h2 h3 h4 h5,
      onboard_ok st inp g2 now nowCreate h1 h2 h3 h4 h5]
  · intro items iid
    exact grantLoop_ok g1 iid items

theorem c5_onboard_best_effort_witness :
    (onboardContractor initState
        { firstName := some "New", lastName := some "Contractor",
          email := some "new@x.com", managerSailPointId := some "sp-mgr",
          attributes := some [("department", "Temp")],
          initialAccess := [AccessReq.obj (some "ap-1") (some "ACCESS_PROFILE"),
                            AccessReq.str "role-2"],
          endDate := none }
        (fun _ => Except.error "boom") 0 0).1
      = Except.ok
          { mcpTrackingId := "mcp-onboarding-" ++ Nat.repr 0,
            sailpointAccountId := mkAccountId initState.accountCounter,
            sailpointIdentityId := mkIdentityId initState.identityCounter }
    ∧ onboardContractor initState
        { firstName := some "New", lastName := some "Contractor",
          email := some "new@x.com", managerSailPointId := some "sp-mgr",
          attributes := some [("department", "Temp")],
          initialAccess := [AccessReq.obj (some "ap-1") (some "ACCESS_PROFILE"),
                            AccessReq.str "role-2"],
          endDate := none }
        (fun _ => Except.error "boom") 0 0
      = onboardContractor initState
        { firstName := some "New", lastName := some "Contractor",
          email := some "new@x.com", managerSailPointId := some "sp-mgr",
          attributes := some [("department", "Temp")],
          initialAccess := [AccessReq.obj (some "ap-1") (some "ACCESS_PROFILE"),
                            AccessReq.str "role-2"],
          endDate := none }
        (fun _ => Except.ok "task") 0 0
    ∧ (∀ items : List AccessReq, ∀ iid : String,
        grantLoop (fun _ => Except.error "boom") iid items = Except.ok ()) :=
  c5_onboard_best_effort initState
    { firstName := some "New", lastName := some "Contractor",
      email := some "new@x.com", managerSailPointId := some "sp-mgr",
      attributes := some [("department", "Temp")],
      initialAccess := [AccessReq.obj (some "ap-1") (some "ACCESS_PROFILE"),
                        AccessReq.str "role-2"],
      endDate := none }
    (fun _ => Except.error "boom") (fun _ => Except.ok "task") 0 0
    (by decide) (by decide) (by decide) (by decide) (by decide)

theorem entryEmail_create (st : SPState) (d : AccountData) (now : Nat) :
    entryEmail (simulateCreateAccount st d now).2.heap
        (IdentEntry.ref st.heap.length)
      = attrGet d.attributes "mail" := by
  unfold entryEmail
  simp only [List.get?_eq_getElem?]
  rw [createAccount_heap_get]
  rfl

theorem mkSearchResult_create_id (st : SPState) (d : AccountData) (now : Nat) :
    (mkSearchResult (simulateCreateAccount st d now).2.heap
        (IdentEntry.ref st.heap.length)).id
      = some (mkIdentityId st.identityCounter) := by
  unfold mkSearchResult
  simp only [List.get?_eq_getElem?]
  rw [createAccount_heap_get]
  rfl

theorem searchIdentity_by_identityId (st : SPState) (i : String)
    (hi : ¬ i = "") (en : IdentEntry)
    (hfind : findIdentityById st i = some en) :
    simulateSearchIdentity st
        { email := none, accountId := none, identityId := some i }
      = SearchResponse.found [mkSearchResult st.heap en] := by
  have hji : jsTruthy (some i) = true := by simp [jsTruthy, hi]
  unfold simulateSearchIdentity
  simp only []
  have hjn : jsTruthy (none : Option String) = true ↔ False := by
    simp [jsTruthy]
  simp only [hjn, if_false, hji, eq_self_iff_true, if_true]
  have hui : undefStr (some i) = i := rfl
  rw [hui, hfind]

theorem searchIdentity_by_accountId (st : SPState) (a : String)
    (ha : ¬ a = "") (en : IdentEntry)
    (hfind : findIdentityById st a = some en) :
    simulateSearchIdentity st
        { email := none, accountId := some a, identityId := none }
      = SearchResponse.found [mkSearchResult st.heap en] := by
  have hja : jsTruthy (some a) = true := by simp [jsTruthy, ha]
  unfold simulateSearchIdentity
  simp only []
  have hjn : jsTruthy (none : Option String) = true ↔ False := by
    simp [jsTruthy]
  simp only [hjn, if_false, hja, eq_self_iff_true, if_true]
  have hua : undefStr (some a) = a := rfl
  rw [hua, hfind]

theorem searchIdentity_email_append (st : SPState) (e : String)
    (he : ¬ e = "") (l : List (String × IdentEntry)) (k : String)
    (en : IdentEntry) (hst : st.identStore = l ++ [(k, en)])
    (hee : entryEmail st.heap en = some e) :
    simulateSearchIdentity st
        { email := some e, accountId := none, identityId := none }
      = SearchResponse.found [mkSearchResult st.heap en] := by
  have hje : jsTruthy (some e) = true := by simp [jsTruthy, he]
  unfold simulateSearchIdentity
  simp only []
  simp only [hje, eq_self_iff_true, if_true]
  rw [hst, List.foldl_append]
  simp only [List.foldl_cons, List.foldl_nil]
  rw [if_pos hee]

/-- C9 counterexample: after two `createAccount` calls with the same `mail`
attribute, the first created identity (id `simulated-identityId-2`, account
`simulated-accountId-3`, creation task `account-creation-task-0`) no longer
satisfies the claim: searching by its email returns the later identity
`simulated-identityId-3` (the email scan keeps the last match), while
searching by its account id — and the `identityId` reported in its creation
task's COMPLETED result — still name `simulated-identityId-2`. -/
theorem c9_shared_email_counterexample :
    searchFirstId (simulateSearchIdentity dupState2
        { email := some "a@x.com", accountId := none, identityId := none })
      = some "simulated-identityId-3"
    ∧ searchFirstId (simulateSearchIdentity dupState2
        { email := none, accountId := some "simulated-accountId-3",
          identityId := none })
      = some "simulated-identityId-2"
    ∧ (pollTaskStatus dupState2 "account-creation-task-0" 5).1
        = PollOutcome.resolved
          { id := "account-creation-task-0", type := "GENERIC_TASK",
            name := none, status := some "COMPLETED",
            result := TaskResult.acct "simulated-accountId-3"
              (some "simulated-identityId-2") "s1" }
    ∧ ¬ ("simulated-identityId-3" : String) = "simulated-identityId-2" :=
  ⟨by decide, by decide, by decide, by decide⟩

/-- C9 amended: provided the identity just created is fresh — its email is a
nonempty string and the two store keys minted for it are new — searching by
that email, by the new account id and by the new identity id each return a
single-element list whose `id` is the created identity id, which also equals
the `identityId` carried in the creation task's COMPLETED poll result.
(Without the freshness proviso the email search can return a later identity
that shares the email, as the counterexample shows.) -/
theorem c9_search_consistency_amended (st : SPState) (d : AccountData)
    (now : Nat) (e : String)
    (hmail : attrGet d.attributes "mail" = some e) (he : ¬ e = "")
    (hfreshA : storeGet st.identStore (mkAccountId st.accountCounter) = none)
    (hfreshI : storeGet st.identStore (mkIdentityId st.identityCounter)
        = none) :
    (∃ r : SearchResult,
      simulateSearchIdentity (simulateCreateAccount st d now).2
          { email := some e, accountId := none, identityId := none }
        = SearchResponse.found [r]
      ∧ r.id = some (mkIdentityId st.identityCounter))
    ∧ (∃ r : SearchResult,
      simulateSearchIdentity (simulateCreateAccount st d now).2
          { email := none, accountId := some (mkAccountId st.accountCounter),
            identityId := none }
        = SearchResponse.found [r]
      ∧ r.id = some (mkIdentityId st.identityCounter))
    ∧ (∃ r : SearchResult,
      simulateSearchIdentity (simulateCreateAccount st d now).2
          { email := none, accountId := none,
            identityId := some (mkIdentityId st.identityCounter) }
        = SearchResponse.found [r]
      ∧ r.id = some (mkIdentityId st.identityCounter))
    ∧ (pollTaskStatus (simulateCreateAccount st d now).2
          ("account-creation-task-" ++ Nat.repr now) 5).1
        = PollOutcome.resolved
          { id := "account-creation-task-" ++ Nat.repr now,
            type := "GENERIC_TASK", name := none,
            status := some "COMPLETED",
            result := TaskResult.acct (mkAccountId st.accountCounter)
              (some (mkIdentityId st.identityCounter)) d.sourceId } := by
  refine ⟨⟨_, ?_, mkSearchResult_create_id st d now⟩,
    ⟨_, ?_, mkSearchResult_create_id st d now⟩,
    ⟨_, ?_, mkSearchResult_create_id st d now⟩, ?_⟩
  · exact searchIdentity_email_append (simulateCreateAccount st d now).2 e he
      (st.identStore
        ++ [(mkAccountId st.accountCounter, IdentEntry.ref st.heap.length)])
      (mkIdentityId st.identityCounter) (IdentEntry.ref st.heap.length)
      (createAccount_identStore_shape st d now hfreshA hfreshI)
      (by rw [entryEmail_create]; exact hmail)
  · exact searchIdentity_by_accountId (simulateCreateAccount st d now).2
      (mkAccountId st.accountCounter) (mkAccountId_ne_empty _)
      (IdentEntry.ref st.heap.length) (findIdentityById_create_acct st d now)
  · exact searchIdentity_by_identityId (simulateCreateAccount st d now).2
      (mkIdentityId st.identityCounter) (mkIdentityId_ne_empty _)
      (IdentEntry.ref st.heap.length) (findIdentityById_create_ident st d now)
  · rw [createAccount_poll]

theorem c9_search_consistency_amended_witness :
    (∃ r : SearchResult,
      simulateSearchIdentity (simulateCreateAccount initState w1payload 0).2
          { email := some "a@x.com", accountId := none, identityId := none }
        = SearchResponse.found [r]
      ∧ r.id = some (mkIdentityId initState.identityCounter))
    ∧ (∃ r : SearchResult,
      simulateSearchIdentity (simulateCreateAccount initState w1payload 0).2
          { email := none,
            accountId := some (mkAccountId initState.accountCounter),
            identityId := none }
        = SearchResponse.found [r]
      ∧ r.id = some (mkIdentityId initState.identityCounter))
    ∧ (∃ r : SearchResult,
      simulateSearchIdentity (simulateCreateAccount initState w1payload 0).2
          { email := none, accountId := none,
            identityId := some (mkIdentityId initState.identityCounter) }
        = SearchResponse.found [r]
      ∧ r.id = some (mkIdentityId initState.identityCounter))
    ∧ (pollTaskStatus (simulateCreateAccount initState w1payload 0).2
          ("account-creation-task-" ++ Nat.repr 0) 5).1
        = PollOutcome.resolved
          { id := "account-creation-task-" ++ Nat.repr 0,
            type := "GENERIC_TASK", name := none,
            status := some "COMPLETED",
            result := TaskResult.acct (mkAccountId initState.accountCounter)
              (some (mkIdentityId initState.identityCounter))
              w1payload.sourceId } :=
  c9_search_consistency_amended initState w1payload 0 "a@x.com"
    (by decide) (by decide) (by decide) (by decide)
